import Mathlib

/-!
Verification of the elfsight-hcp-webhook lead-creation service.

This file gives a shallow embedding, in Lean 4, of the core Python code of
the repository (src/utils.py, src/customer_matcher.py, src/lead_creator.py,
src/config.py), and proves or refutes the frozen specification claims about
it.

Conventions of the embedding:
* Python strings are Lean `String`s; the Python string operations used by the
  code (lower, strip, split, substring test) are re-implemented over
  `String.data` so that every definition evaluates inside the Lean kernel.
  (`Char.toLower`, `Char.isWhitespace`, `Char.isDigit` are ASCII-accurate;
  the repository only handles ASCII form data.)
* Python `float` scores are modelled as `ℚ`; the decimal literals of the
  source (0.4, 0.5, 0.8, ...) are the exact rationals 2/5, 1/2, 4/5, ....
* A Python value that may be `None` is an `Option`; Python truthiness of an
  optional string (`None` and `""` are falsy) is `strTruthy`.
* Python dicts with a fixed key set are Lean structures; a missing key and a
  key stored as `None` both read back as `none` via `dict.get`, which is how
  the source consumes them.
* Calls to the logger are modelled only where a claim mentions them
  (`normalize_phone` returns its list of emitted warnings alongside the
  value).
-/

/-! ## Python string primitives -/

/-- Python truthiness of an optional string: `None` and `""` are falsy. -/
def strTruthy : Option String → Bool
  | none => false
  | some s => s ≠ ""

/-- Python `str.lower` over the underlying character list (ASCII). -/
def pyLower (s : String) : String := String.mk (s.data.map Char.toLower)

/-- Python `str.strip` with no argument: drop leading and trailing whitespace. -/
def trimChars (l : List Char) : List Char :=
  ((l.dropWhile Char.isWhitespace).reverse.dropWhile Char.isWhitespace).reverse

/-- Python `str.strip` on a `String`. -/
def pyStrip (s : String) : String := String.mk (trimChars s.data)

/-- Python `str.split()` with no argument: split on whitespace runs, dropping
empty pieces. -/
def pySplitWs (s : String) : List String :=
  ((s.data.splitOnP Char.isWhitespace).map String.mk).filter (fun p => p ≠ "")

/-- Python `needle in hay` substring test for strings. -/
def strContainsSub (hay needle : String) : Bool :=
  (List.range (hay.length + 1)).any
    (fun i => (hay.data.drop i).take needle.length == needle.data)

/-! ## difflib.SequenceMatcher (no junk, strings shorter than the autojunk
threshold)

`SequenceMatcher.ratio()` is `2*M/T` where `T` is the total length of the two
strings and `M` is the total size of the matching blocks found by repeatedly
taking the longest matching block (earliest in `a`, then earliest in `b`, on
ties) and recursing on the pieces to its left and to its right. -/

/-- Length of the common prefix of two character lists — the length of the
matching run that starts at a given pair of positions. -/
def commonRun : List Char → List Char → Nat
  | x :: xs, y :: ys => if x = y then commonRun xs ys + 1 else 0
  | _, _ => 0

/-- All candidate matching blocks `(i, j, runLength)` of `a` against `b`. -/
def flmCandidates (a b : List Char) : List (Nat × Nat × Nat) :=
  (List.range a.length).flatMap fun i =>
    (List.range b.length).map fun j => (i, j, commonRun (a.drop i) (b.drop j))

/-- Python keeps a candidate only when its run length strictly exceeds the
best so far, which selects the first candidate attaining the maximum. -/
def pickBest (init : Nat × Nat × Nat) (l : List (Nat × Nat × Nat)) : Nat × Nat × Nat :=
  l.foldl (fun best c => if best.2.2 < c.2.2 then c else best) init

/-- Model of `SequenceMatcher.find_longest_match` over the whole strings:
the longest matching block, tie-broken to the earliest start in `a` and then
in `b`; `(0, 0, 0)` when there is none. -/
def findLongestMatch (a b : List Char) : Nat × Nat × Nat :=
  pickBest (0, 0, 0) (flmCandidates a b)

/-- Model of the total size of `get_matching_blocks`: take the longest match,
recurse left and right of it.  The recursion of the source terminates because
each sub-problem is a strict sub-range; here that is expressed with a fuel
argument.  Fuel `a.length` always suffices: every recursive call strictly
decreases the length of the `a`-side piece, and on empty `a` the longest
match is empty, so an exhausted-fuel result of `0` agrees with the source. -/
def smMatchesGo : Nat → List Char → List Char → Nat
  | 0, _, _ => 0
  | fuel + 1, a, b =>
    let t := findLongestMatch a b
    if t.2.2 = 0 then 0
    else
      t.2.2 +
        (if 0 < t.1 ∧ 0 < t.2.1 then smMatchesGo fuel (a.take t.1) (b.take t.2.1) else 0) +
        (if t.1 + t.2.2 < a.length ∧ t.2.1 + t.2.2 < b.length then
          smMatchesGo fuel (a.drop (t.1 + t.2.2)) (b.drop (t.2.1 + t.2.2)) else 0)

/-- Total matched size used by `SequenceMatcher.ratio`. -/
def smMatches (a b : List Char) : Nat := smMatchesGo a.length a b

/-- Model of `SequenceMatcher(None, a, b).ratio()`:
`2*M/T` for `T ≠ 0`, and `1.0` for two empty strings. -/
def ratioQ (a b : List Char) : ℚ :=
  if a.length + b.length = 0 then 1
  else 2 * (smMatches a b : ℚ) / ((a.length : ℚ) + (b.length : ℚ))

/-- String version of `ratioQ`. -/
def strRatioQ (s t : String) : ℚ := ratioQ s.data t.data

/-! ## utils.normalize_phone -/

/-- Warnings emitted through the logger by `normalize_phone`. -/
inductive PhoneWarning where
  | tooLong
  | invalid
deriving DecidableEq

/-- Digits kept by `re.sub(r'\D', '', phone)`. -/
def phoneDigits (phone : String) : String := String.mk (phone.data.filter Char.isDigit)

/-- Model of `utils.normalize_phone`: the returned optional value together
with the warnings the function logs. -/
def normalize_phone (phone : String) (default_area_code : String) :
    Option String × List PhoneWarning :=
  if phone = "" then (none, [])
  else
    let digits := phoneDigits phone
    if digits.length = 10 then
      (some ("+1" ++ digits), [])
    else if digits.length = 11 ∧ digits.data.take 1 = ['1'] then
      (some ("+" ++ digits), [])
    else if digits.length = 7 then
      (some ("+1" ++ default_area_code ++ digits), [])
    else if digits.length > 11 then
      let last_10 := String.mk (digits.data.drop (digits.length - 10))
      (some ("+1" ++ last_10), [PhoneWarning.tooLong])
    else
      (none, [PhoneWarning.invalid])

/-! ## utils.parse_name and utils.sanitize_string -/

/-- Model of `utils.parse_name`. -/
def parse_name (full_name : String) : String × String :=
  if full_name = "" then ("", "")
  else
    let parts := pySplitWs (pyStrip full_name)
    match parts with
    | [] => ("", "")
    | [p] => (p, "")
    | [p, q] => (p, q)
    | _ => (String.intercalate " " parts.dropLast, parts.getLastD "")

/-- Model of `utils.sanitize_string` for a present string argument
(`" ".join(s.split())` then `strip`). -/
def sanitize_string (s : String) : String :=
  if s = "" then ""
  else pyStrip (String.intercalate " " (pySplitWs s))

/-! ## Address dictionaries -/

/-- A Python address dictionary as the source reads it: every key the code
ever looks up, each possibly absent.  A missing key and a key stored as
`None` both read back as `none`. -/
structure PyAddress where
  id : Option String := none
  street : Option String := none
  street_line_2 : Option String := none
  city : Option String := none
  state : Option String := none
  zip : Option String := none
  country : Option String := none
deriving DecidableEq

/-- Python `any(addr.values())`: some stored value is truthy. -/
def pyAnyAddr (a : PyAddress) : Bool :=
  [a.id, a.street, a.street_line_2, a.city, a.state, a.zip, a.country].any strTruthy

/-- Shared field read of `compare_addresses`: `(addr.get(f) or "").lower().strip()`. -/
def pyLowerStrip (v : Option String) : String := pyStrip (pyLower (v.getD ""))

/-- Field getters in the loop order `["street", "city", "state", "zip"]` of
`compare_addresses`, each paired with its weight from the weights dict
`{zip: 0.4, street: 0.3, city: 0.2, state: 0.1}`. -/
def cmpFields : List ((PyAddress → Option String) × ℚ) :=
  [(fun a => a.street, 3/10), (fun a => a.city, 1/5),
   (fun a => a.state, 1/10), (fun a => a.zip, 2/5)]

/-- Value of `sum(weights.values())` in `compare_addresses`. -/
def weightsTotal : ℚ := 2/5 + 3/10 + 1/5 + 1/10

/-- Model of `utils.compare_addresses`.  First loop: per-field scores (`1.0`
on exact equality, else the `SequenceMatcher` score), kept only for the
emptiness test.  Second loop: `SequenceMatcher` score times the field weight
for every field pair present on both sides; the result is their sum divided
by `sum(weights.values())`. -/
def compare_addresses (addr1 addr2 : PyAddress) : ℚ :=
  let scores := cmpFields.filterMap (fun fw =>
    let v1 := pyLowerStrip (fw.1 addr1)
    let v2 := pyLowerStrip (fw.1 addr2)
    if v1 = "" ∨ v2 = "" then none
    else if v1 = v2 then some (1 : ℚ) else some (strRatioQ v1 v2))
  if scores = [] then 0
  else
    let weighted_scores := cmpFields.filterMap (fun fw =>
      let v1 := pyLowerStrip (fw.1 addr1)
      let v2 := pyLowerStrip (fw.1 addr2)
      if v1 = "" ∨ v2 = "" then none
      else some (strRatioQ v1 v2 * fw.2))
    if weighted_scores = [] then 0
    else weighted_scores.sum / weightsTotal

/-! ## utils.parse_address

The source is a chain of three regular expressions.  The patterns are
anchored (the first two) or scan from the left (the third), so their
backtracking behaviour is deterministic; the definitions below carry out the
matches directly on the character list.  Group captures are `strip`ped
exactly where the source does. -/

/-- ASCII uppercase test used by the `[A-Z]{2}` state groups. -/
def isUpperAZ (c : Char) : Bool := 'A' ≤ c && c ≤ 'Z'

/-- Python regex word character (ASCII fragment), for `\b` boundaries. -/
def isWordChar (c : Char) : Bool := c.isAlphanum || c = '_'

/-- Drop trailing whitespace only. -/
def dropTrailingWs (l : List Char) : List Char :=
  (l.reverse.dropWhile Char.isWhitespace).reverse

/-- Match of the end-anchored zip group `(\d{5}(?:-\d{4})?)$` of patterns 1
and 2: the greedy optional part tries the ten-character `ddddd-dddd` suffix
first, then the five-digit suffix.  Returns the remaining front and the zip. -/
def zipSuffixSplit (l : List Char) : Option (List Char × List Char) :=
  let n := l.length
  let z9 := l.drop (n - 10)
  if 10 ≤ n ∧ (z9.take 5).all Char.isDigit ∧ (z9.drop 5).take 1 = ['-'] ∧
      (z9.drop 6).all Char.isDigit then
    some (l.take (n - 10), z9)
  else
    let z5 := l.drop (n - 5)
    if 5 ≤ n ∧ z5.all Char.isDigit then some (l.take (n - 5), z5) else none

/-- Split of `^(.+?),(rest)` inside patterns 1 and 2: the lazy street group
takes everything before the first comma that leaves both a non-empty street
and a non-empty remainder. -/
def firstCommaSplit (l : List Char) : Option (List Char × List Char) :=
  match (List.range l.length).find? (fun i =>
      decide (1 ≤ i) && decide (i + 1 < l.length) && (l.getD i ' ' == ',')) with
  | some i => some (l.take i, l.drop (i + 1))
  | none => none

/-- Pattern 1 of `parse_address`:
`^(.+?),\s*(.+?),\s*([A-Z]{2})\s+(\d{5}(?:-\d{4})?)$`, matched from the
anchored right end: zip, then at least one whitespace, then the two-letter
state, then optional whitespace and a mandatory comma, then street and city
split at the first usable comma. -/
def addrPattern1 (l : List Char) : Option (String × String × String × String) := do
  let (r1, zp) ← zipSuffixSplit l
  let r2 := dropTrailingWs r1
  guard (r2.length < r1.length)
  guard (2 ≤ r2.length)
  let st := r2.drop (r2.length - 2)
  guard (st.all isUpperAZ)
  let r3 := r2.take (r2.length - 2)
  let r4 := dropTrailingWs r3
  guard (r4.getLast? = some ',')
  let r5 := r4.dropLast
  let (street, cityPart) ← firstCommaSplit r5
  pure (String.mk (trimChars street), String.mk (trimChars cityPart),
    String.mk st, String.mk zp)

/-- Pattern 2 of `parse_address`:
`^(.+?),\s*(.+?)\s+([A-Z]{2})\s+(\d{5}(?:-\d{4})?)$` — as pattern 1 but with
mandatory whitespace instead of a comma between the city and the state. -/
def addrPattern2 (l : List Char) : Option (String × String × String × String) := do
  let (r1, zp) ← zipSuffixSplit l
  let r2 := dropTrailingWs r1
  guard (r2.length < r1.length)
  guard (2 ≤ r2.length)
  let st := r2.drop (r2.length - 2)
  guard (st.all isUpperAZ)
  let r3 := r2.take (r2.length - 2)
  let r4 := dropTrailingWs r3
  guard (r4.length < r3.length)
  let (street, cityPart) ← firstCommaSplit r4
  pure (String.mk (trimChars street), String.mk (trimChars cityPart),
    String.mk st, String.mk zp)

/-- Attempt of the unanchored `\b(\d{5}(?:-\d{4})?)\b` of pattern 3 at one
start position: word boundary before, five digits, then greedily the
`-dddd` tail with a boundary after, else a boundary right after the five
digits.  Returns the match length. -/
def p3ZipAt (l : List Char) (i : Nat) : Option Nat :=
  if !(i = 0 || !isWordChar (l.getD (i - 1) ' ')) then none
  else if !(decide (i + 5 ≤ l.length) && ((l.drop i).take 5).all Char.isDigit) then none
  else if (l.getD (i + 5) ' ' == '-') && decide (i + 10 ≤ l.length) &&
      ((l.drop (i + 6)).take 4).all Char.isDigit && !isWordChar (l.getD (i + 10) ' ') then
    some 10
  else if !isWordChar (l.getD (i + 5) ' ') then some 5
  else none

/-- Leftmost zip match of pattern 3 (`re.search` scans start positions from
the left). -/
def p3FindZip (l : List Char) : Option (Nat × Nat) :=
  (List.range l.length).findSome? (fun i => (p3ZipAt l i).map (fun n => (i, n)))

/-- Python `str.split(',')` keeping empty pieces, with each piece stripped as
in the source list comprehension. -/
def splitCommaStrip (l : List Char) : List String :=
  (l.splitOnP (fun c => c == ',')).map (fun p => String.mk (trimChars p))

/-- Pattern 3 of `parse_address`: find a zip anywhere; in the stripped text
before it, accept a trailing two-uppercase-letter state token
(`\b([A-Z]{2})\s*$`); split what precedes the state on commas into street
and city when two pieces exist, else street only. -/
def addrPattern3 (l : List Char) : PyAddress :=
  match p3FindZip l with
  | none => {}
  | some (i, n) =>
    let zp := String.mk ((l.drop i).take n)
    let before_zip := trimChars (l.take i)
    let m := before_zip.length
    if decide (2 ≤ m) && (before_zip.drop (m - 2)).all isUpperAZ &&
        (m = 2 || !isWordChar (before_zip.getD (m - 3) ' ')) then
      let st := String.mk (before_zip.drop (m - 2))
      let before_state := trimChars (before_zip.take (m - 2))
      match splitCommaStrip before_state with
      | p0 :: p1 :: _ => { street := some p0, city := some p1, state := some st, zip := some zp }
      | [p0] => { street := some p0, state := some st, zip := some zp }
      | [] => { state := some st, zip := some zp }
    else
      { zip := some zp }

/-- Model of `utils.parse_address`: the three patterns in order, then the
everything-into-street fallback when nothing was extracted. -/
def parse_address (address_string : String) : PyAddress :=
  if address_string = "" then {}
  else
    let l := trimChars address_string.data
    match addrPattern1 l with
    | some (st, ci, sta, zp) =>
      { street := some st, city := some ci, state := some sta, zip := some zp }
    | none =>
      match addrPattern2 l with
      | some (st, ci, sta, zp) =>
        { street := some st, city := some ci, state := some sta, zip := some zp }
      | none =>
        let r := addrPattern3 l
        if pyAnyAddr r then r else { street := some (String.mk l) }

/-! ## customer_matcher.py -/

/-- A customer record as the matcher reads it from the directory: `id` is
read with `c["id"]` / `c.get("id")` (an absent id behaves as `""`), names are
read with a `""` default, phone and email with a `None`-tolerant `or`. -/
structure Customer where
  id : String := ""
  first_name : String := ""
  last_name : String := ""
  email : Option String := none
  mobile_number : Option String := none
  home_number : Option String := none
  addresses : List PyAddress := []
deriving DecidableEq

/-- Python `a or b or ""` over two optional strings. -/
def pyOrStr (a b : Option String) : String :=
  if strTruthy a then a.getD "" else if strTruthy b then b.getD "" else ""

/-- Model of `CustomerMatcher._customer_has_phone`; the matcher normalizes
the stored number with the default area code `"415"` of `normalize_phone`. -/
def customer_has_phone (c : Customer) (phone : String) : Bool :=
  let customer_phone := (normalize_phone (pyOrStr c.mobile_number c.home_number) "415").1
  if strTruthy customer_phone then customer_phone.getD "" == phone else false

/-- Model of `CustomerMatcher._customer_has_email`. -/
def customer_has_email (c : Customer) (email : String) : Bool :=
  let customer_email := pyStrip (pyLower (c.email.getD ""))
  if customer_email ≠ "" then customer_email == pyStrip (pyLower email) else false

/-- Python `f"{first_name} {last_name}".strip()` used on candidates. -/
def candidateFullName (c : Customer) : String :=
  pyStrip (c.first_name ++ " " ++ c.last_name)

/-- Model of `CustomerMatcher._calculate_confidence`: 0.4 for a phone match,
0.4 for an email match, up to 0.2 from name similarity, each term only when
the corresponding input was supplied. -/
def calculate_confidence (c : Customer) (phone email name : Option String) : ℚ :=
  let s1 : ℚ :=
    if strTruthy phone then (if customer_has_phone c (phone.getD "") then 2/5 else 0) else 0
  let s2 : ℚ :=
    if strTruthy email then (if customer_has_email c (email.getD "") then 2/5 else 0) else 0
  let s3 : ℚ :=
    if strTruthy name then
      (let cn := candidateFullName c
      if cn ≠ "" then strRatioQ (pyLower (name.getD "")) (pyLower cn) * (1/5) else 0)
    else 0
  s1 + s2 + s3

/-- Per-candidate score of `CustomerMatcher._select_best_match`: half the
name similarity when a name is given, then, when an address is given, one
loop iteration `score = max(score, score + similarity * 0.5)` per known
address of the candidate. -/
def scoreCandidate (name : Option String) (address : Option PyAddress) (c : Customer) : ℚ :=
  let base : ℚ :=
    if strTruthy name then
      (let cn := candidateFullName c
      if cn ≠ "" then strRatioQ (pyLower (name.getD "")) (pyLower cn) * (1/2) else 0)
    else 0
  match address with
  | some addr =>
    if c.addresses ≠ [] then
      c.addresses.foldl (fun score a => max score (score + compare_addresses addr a * (1/2))) base
    else base
  | none => base

/-- First element of maximal score: the stable descending sort of the source
followed by taking the head. -/
def pickFirstMax (l : List (ℚ × Customer)) : Option (ℚ × Customer) :=
  match l with
  | [] => none
  | x :: xs => some (xs.foldl (fun best y => if best.1 < y.1 then y else best) x)

/-- Model of `CustomerMatcher._select_best_match`.  A single candidate is
returned unscored; on an empty list the source would raise an IndexError
(both call sites guard non-emptiness), modelled by a default record. -/
def select_best_match (candidates : List Customer) (name : Option String)
    (address : Option PyAddress) : Customer :=
  match candidates with
  | [c] => c
  | cs =>
    match pickFirstMax (cs.map (fun c => (scoreCandidate name address c, c))) with
    | some p => p.2
    | none => {}

/-- Model of `CustomerMatcher._find_exact_matches`: the customers of the
email list whose id also occurs in the phone list. -/
def find_exact_matches (phone_matches email_matches : List Customer) : List Customer :=
  if phone_matches = [] ∨ email_matches = [] then []
  else email_matches.filter (fun c => phone_matches.any (fun p => p.id == c.id))

/-- Model of `CustomerMatcher._deduplicate_customers`: keep the first record
of each truthy id. -/
def deduplicate_customers (customers : List Customer) : List Customer :=
  (customers.foldl
    (fun acc c => if c.id ≠ "" ∧ c.id ∉ acc.2 then (acc.1 ++ [c], acc.2 ++ [c.id]) else acc)
    (([], []) : List Customer × List String)).1

/-- Warning text of the partial-match branch. -/
def verifyWarning (matched_fields : List String) : String :=
  "Partial match: " ++ String.intercalate " and " matched_fields ++
    " matched, but not all fields. Please verify this is the correct customer."

/-- Duplicate-review warning of the partial-match/new-customer branch. -/
def dupWarning : String :=
  "⚠️ User indicated NEW customer, but potential duplicate found. Creating new customer record. Please review and merge if duplicate."

/-- Result record of `CustomerMatcher.find_matching_customer`. -/
structure MatchResult where
  match_type : String
  confidence : ℚ
  customer_id : Option String := none
  customer_data : Option Customer := none
  warnings : List String := []
  should_create_new : Bool := false
deriving DecidableEq

/-- Logic of `find_matching_customer` after the two directory searches. -/
def matchFromResults (phone_matches email_matches : List Customer)
    (phone email name : Option String) (address : Option PyAddress)
    (is_existing_customer : Bool) : MatchResult :=
  let exact_matches := find_exact_matches phone_matches email_matches
  if exact_matches ≠ [] then
    let best_match := select_best_match exact_matches name address
    { match_type := "exact", confidence := 1, customer_id := some best_match.id,
      customer_data := some best_match, warnings := [], should_create_new := false }
  else
    let all_matches := deduplicate_customers (phone_matches ++ email_matches)
    if all_matches ≠ [] then
      let best_match := select_best_match all_matches name address
      let confidence := calculate_confidence best_match phone email name
      let matched_fields :=
        (if strTruthy phone ∧ customer_has_phone best_match (phone.getD "") then ["phone"]
          else []) ++
        (if strTruthy email ∧ customer_has_email best_match (email.getD "") then ["email"]
          else [])
      let warnings := [verifyWarning matched_fields]
      if is_existing_customer then
        { match_type := "partial", confidence := confidence,
          customer_id := some best_match.id, customer_data := some best_match,
          warnings := warnings, should_create_new := false }
      else
        { match_type := "partial", confidence := confidence, customer_id := none,
          customer_data := some best_match, warnings := warnings ++ [dupWarning],
          should_create_new := true }
    else
      { match_type := "none", confidence := 0, customer_id := none, customer_data := none,
        warnings := [], should_create_new := true }

/-- Model of `CustomerMatcher.find_matching_customer` over an abstract
directory search function (`hcp_client.search_customers`, which is empty on
lookup failure). -/
def find_matching_customer (search : String → List Customer)
    (phone email name : Option String) (address : Option PyAddress)
    (is_existing_customer : Bool) : MatchResult :=
  let phone_matches := if strTruthy phone then search (phone.getD "") else []
  let email_matches := if strTruthy email then search (email.getD "") else []
  matchFromResults phone_matches email_matches phone email name address is_existing_customer

/-- Model of `CustomerMatcher.should_create_new_address`. -/
def should_create_new_address (customer : Customer) (new_address : PyAddress) : Bool :=
  if !pyAnyAddr new_address then false
  else if customer.addresses = [] then true
  else if customer.addresses.any
      (fun existing_addr => decide ((4:ℚ)/5 < compare_addresses new_address existing_addr)) then
    false
  else true

/-- Four-field view `existing_parsed` that
`_find_matching_address_from_list` builds from a directory address before
comparing. -/
def apiCmpView (existing_addr : PyAddress) : PyAddress :=
  { street := existing_addr.street, city := existing_addr.city,
    state := existing_addr.state, zip := existing_addr.zip }

/-- Model of `LeadCreator._find_matching_address_from_list`: the first
directory address whose four compared fields score at least 0.8 against the
proposed address. -/
def find_matching_address_from_list (addresses : List PyAddress) (new_address : PyAddress) :
    Option PyAddress :=
  if addresses = [] then none
  else addresses.find? (fun existing_addr =>
    decide ((4:ℚ)/5 ≤ compare_addresses (apiCmpView existing_addr) new_address))

/-! ## Definitions taken from the wording of the specification

These definitions follow the sentences of spec.md (not the source); each
claim theorem compares them against the source-derived definitions above. -/

/-- Per-field weighted summand of the second loop of `compare_addresses`:
zero when the pair is not comparable, else the ratio times the weight.  Used
to state the closed form of the code. -/
def fieldTerm (v1 v2 : Option String) (w : ℚ) : ℚ :=
  if pyLowerStrip v1 = "" ∨ pyLowerStrip v2 = "" then 0
  else strRatioQ (pyLowerStrip v1) (pyLowerStrip v2) * w

/-- No field pair of the two addresses is comparable. -/
def noComparableField (a1 a2 : PyAddress) : Prop :=
  (pyLowerStrip a1.street = "" ∨ pyLowerStrip a2.street = "") ∧
  (pyLowerStrip a1.city = "" ∨ pyLowerStrip a2.city = "") ∧
  (pyLowerStrip a1.state = "" ∨ pyLowerStrip a2.state = "") ∧
  (pyLowerStrip a1.zip = "" ∨ pyLowerStrip a2.zip = "")

instance (a1 a2 : PyAddress) : Decidable (noComparableField a1 a2) := by
  unfold noComparableField; infer_instance

/-- Field pair "present (non-empty) on both sides" after the normalization
the spec describes. -/
def specComparable (v1 v2 : Option String) : Prop :=
  pyLowerStrip v1 ≠ "" ∧ pyLowerStrip v2 ≠ ""

instance (v1 v2 : Option String) : Decidable (specComparable v1 v2) := by
  unfold specComparable; infer_instance

/-- Per-field score of spec §4.3: exact match after normalization scores 1.0,
otherwise the longest-common-subsequence-block ratio. -/
def specFieldScore (v1 v2 : Option String) : ℚ :=
  if pyLowerStrip v1 = pyLowerStrip v2 then 1
  else strRatioQ (pyLowerStrip v1) (pyLowerStrip v2)

/-- Numerator of spec §4.3: `Σ(fieldScore×weight)` over the comparable
fields. -/
def specWeightedNum (a1 a2 : PyAddress) : ℚ :=
  (if specComparable a1.zip a2.zip then specFieldScore a1.zip a2.zip * (2/5) else 0) +
  (if specComparable a1.street a2.street then specFieldScore a1.street a2.street * (3/10)
    else 0) +
  (if specComparable a1.city a2.city then specFieldScore a1.city a2.city * (1/5) else 0) +
  (if specComparable a1.state a2.state then specFieldScore a1.state a2.state * (1/10) else 0)

/-- Denominator asserted by claim C1: `Σ(weight)` over the comparable fields
only. -/
def specWeightSum (a1 a2 : PyAddress) : ℚ :=
  (if specComparable a1.zip a2.zip then (2:ℚ)/5 else 0) +
  (if specComparable a1.street a2.street then (3:ℚ)/10 else 0) +
  (if specComparable a1.city a2.city then (1:ℚ)/5 else 0) +
  (if specComparable a1.state a2.state then (1:ℚ)/10 else 0)

/-- Overall address score exactly as claim C1 states it: weighted sum divided
by the sum of the weights of the comparable fields, `0.0` when no field pair
is comparable. -/
def specAddressScoreClaim (a1 a2 : PyAddress) : ℚ :=
  if specWeightSum a1 a2 = 0 then 0
  else specWeightedNum a1 a2 / specWeightSum a1 a2

/-- Overall address score after the amendment forced by the code: the same
weighted sum divided by the constant total weight
`0.4 + 0.3 + 0.2 + 0.1 = 1.0`. -/
def specAddressScoreAmended (a1 a2 : PyAddress) : ℚ :=
  if specWeightSum a1 a2 = 0 then 0
  else specWeightedNum a1 a2 / weightsTotal

/-- Candidate score exactly as claim C2 states it: the name part plus `0.5`
times the maximum address similarity over the known addresses of the
candidate, added once. -/
def specScoreCandidateMax (name : Option String) (address : Option PyAddress)
    (c : Customer) : ℚ :=
  let base := scoreCandidate name none c
  match address with
  | some addr =>
    if c.addresses ≠ [] then
      base + (1/2) * ((c.addresses.map (fun a => compare_addresses addr a)).foldl max 0)
    else base
  | none => base

/-- Rule set of claim C6 over the stripped digits and the produced result:
the five length rules, where every failing length yields an absent value
together with a warning. -/
def phoneClaimHolds (default_area_code : String) (digits : String)
    (r : Option String × List PhoneWarning) : Bool :=
  (if digits.length = 10 then decide (r = (some ("+1" ++ digits), [])) else true) &&
  (if digits.length = 11 ∧ digits.data.take 1 = ['1'] then
    decide (r = (some ("+" ++ digits), [])) else true) &&
  (if digits.length = 7 then
    decide (r = (some ("+1" ++ default_area_code ++ digits), [])) else true) &&
  (if digits.length > 11 then
    decide (r = (some ("+1" ++ String.mk (digits.data.drop (digits.length - 10))),
      [PhoneWarning.tooLong])) else true) &&
  (if ¬ digits.length = 10 ∧ ¬ (digits.length = 11 ∧ digits.data.take 1 = ['1']) ∧
      ¬ digits.length = 7 ∧ ¬ digits.length > 11 then
    decide (r.1 = none) && decide (r.2 ≠ []) else true)

/-- Claim C6 as stated, tested on one input. -/
def phoneClaimC6 (phone default_area_code : String) : Bool :=
  phoneClaimHolds default_area_code (phoneDigits phone)
    (normalize_phone phone default_area_code)

/-! ## lead_creator.py and config.py -/

/-- Form data as `create_lead` and `format_lead_note` read it: string fields
default to `""`, individually-supplied address fields to absent, list fields
to `[]`; `sms_consent` keeps a `None` state because `format_lead_note` tests
`is not None`. -/
structure FormData where
  phone : String := ""
  email : String := ""
  first_name : String := ""
  last_name : String := ""
  name : String := ""
  address : String := ""
  customer_type : String := ""
  sms_consent : Option Bool := none
  street : Option String := none
  street_line_2 : Option String := none
  city : Option String := none
  state : Option String := none
  zip : Option String := none
  service_details : List String := []
  service_needed : String := ""
  service_request_details : String := ""
  preferred_contact : String := ""
  file_attachments : List String := []
deriving DecidableEq

/-- Configuration values consumed by the orchestration (config.py), with the
defaults of the source. -/
structure AppConfig where
  DEFAULT_AREA_CODE : String := "415"
  DEFAULT_STATE : String := "CA"
  HCP_LEAD_SOURCE : String := "Website"
  HCP_LEAD_TAG : String := ""
  HCP_WEBSITE_TAG : String := ""
  HCP_ASSIGNED_EMPLOYEE_ID : String := "pro_dabb388b3e684c618867cd4ec0d12930"
  SERVICE_DETAIL_MAPPING : List (String × String) :=
    [("Toilets or Bidets", "Toilet Repair & Replacement"),
     ("Garbage Disposal", "Garbage Disposal Service"),
     ("Plumbing Fixtures", "Faucet & Fixture Service"),
     ("Water Heater", "Water Heater Service"),
     ("Boilers / Combi-Boilers", "Boiler & Hydronics Service"),
     ("Steam / Sauna", "Steam & Sauna Service"),
     ("Other Plumbing", "Other Plumbing Service"),
     ("Other Heating & HVAC", "Other Heating Service")]
  JOB_TYPE_MAPPING : List (String × String) :=
    [("New Installation", "Plumbing Installation"),
     ("Service or Repair", "Plumbing Demand Maintenance"),
     ("Renovation or Remodel", "Plumbing Estimate")]

/-- Python `mapping.get(k)` over an association list. -/
def dictGetOpt (m : List (String × String)) (k : String) : Option String :=
  (m.find? (fun p => p.1 == k)).map (fun p => p.2)

/-- Python `mapping.get(k, d)` over an association list. -/
def dictGetD (m : List (String × String)) (k d : String) : String :=
  (dictGetOpt m k).getD d

/-- Address dictionary sent to the directory (customer creation, address
creation, or inline lead address): only the keys the builders set. -/
structure AddressPayload where
  type : Option String := none
  street : Option String := none
  street_line_2 : Option String := none
  city : Option String := none
  state : Option String := none
  zip : Option String := none
  country : Option String := none
deriving DecidableEq

/-- Customer dictionary sent to `create_customer`. -/
structure CustomerPayload where
  first_name : String
  last_name : String
  notifications_enabled : Bool
  email : Option String := none
  mobile_number : Option String := none
  lead_source : Option String := none
  addresses : Option (List AddressPayload) := none
  tags : Option (List String) := none
deriving DecidableEq

/-- Line item dictionary of `_build_line_items`. -/
structure LineItem where
  name : String
  kind : String
  description : Option String := none
deriving DecidableEq

/-- Lead dictionary sent to `create_lead`. -/
structure LeadPayload where
  customer_id : Option String
  job_type : String
  assigned_employee_id : Option String := none
  address_id : Option String := none
  address : Option AddressPayload := none
  tags : Option (List String) := none
  lead_source : Option String := none
  line_items : Option (List LineItem) := none
  note : Option String := none
deriving DecidableEq

/-- Directory record of a created lead, as read back (`result.get("id")`). -/
structure LeadRecord where
  id : String := ""
deriving DecidableEq

/-- Result record of `LeadCreator.create_lead`. -/
structure LeadCreationResult where
  success : Bool
  customer_id : Option String := none
  job_id : Option String := none
  message : String := ""
  warnings : List String := []
  error : Option String := none
deriving DecidableEq

/-- One call issued to the directory client, recorded for the frame
theorems. -/
inductive DirCall where
  | searchCustomers (query : String)
  | createCustomer (data : CustomerPayload)
  | addCustomerAddress (customer_id : Option String) (data : AddressPayload)
  | getCustomerAddresses (customer_id : Option String)
  | getAddressById (customer_id address_id : Option String)
  | createLead (data : LeadPayload)
deriving DecidableEq

/-- Behaviour of the directory client (hcp_client.py).  Every operation may
either return its value or raise; the transport already degrades HTTP
failures to empty/absent values, so a raise models an unexpected fault. -/
structure HcpEnv where
  search_customers : String → Except String (List Customer)
  create_customer : CustomerPayload → Except String (Option Customer)
  add_customer_address : Option String → AddressPayload → Except String (Option PyAddress)
  get_customer_addresses : Option String → Except String (List PyAddress)
  get_address_by_id : Option String → Option String → Except String (Option PyAddress)
  create_lead : LeadPayload → Except String (Option LeadRecord)

/-- Orchestration monad: a log of issued directory calls, and faults. -/
abbrev OrcM := StateT (List DirCall) (Except String)

/-- Issue one directory call: record it, then return the value or raise. -/
def hcpCall {α : Type} (c : DirCall) (r : Except String α) : OrcM α := do
  modify (fun l => l ++ [c])
  match r with
  | .ok v => pure v
  | .error e => throw e

/-- Model of `CustomerMatcher.find_matching_customer` inside the
orchestration monad: the two searches, then the pure matching logic. -/
def findMatchingCustomerM (env : HcpEnv) (phone email name : Option String)
    (address : Option PyAddress) (is_existing_customer : Bool) : OrcM MatchResult := do
  let phone_matches ←
    if strTruthy phone then
      hcpCall (DirCall.searchCustomers (phone.getD "")) (env.search_customers (phone.getD ""))
    else pure []
  let email_matches ←
    if strTruthy email then
      hcpCall (DirCall.searchCustomers (email.getD "")) (env.search_customers (email.getD ""))
    else pure []
  pure (matchFromResults phone_matches email_matches phone email name address
    is_existing_customer)

/-- Name resolution of `create_lead` (lines 176-182): combine first/last into
a full name, or split a lone full name.  Returns `(name, first_name,
last_name)`. -/
def computeNameFields (form : FormData) : String × String × String :=
  let first_name := form.first_name
  let last_name := form.last_name
  let name := form.name
  if name = "" ∧ (first_name ≠ "" ∨ last_name ≠ "") then
    (pyStrip (first_name ++ " " ++ last_name), first_name, last_name)
  else if first_name = "" ∧ name ≠ "" then
    (name, (parse_name name).1, (parse_name name).2)
  else (name, first_name, last_name)

/-- Address resolution of `create_lead` (lines 197-207): individual form
fields (state defaulted) when any of street/city/zip is supplied, else the
parsed combined string. -/
def computeParsedAddress (cfg : AppConfig) (form : FormData) : PyAddress :=
  if strTruthy form.street ∨ strTruthy form.city ∨ strTruthy form.zip then
    { street := form.street, city := form.city,
      state := some (if strTruthy form.state then form.state.getD "" else cfg.DEFAULT_STATE),
      zip := form.zip }
  else parse_address form.address

/-- Existing-customer flag of `create_lead` (line 210). -/
def computeIsExisting (form : FormData) : Bool :=
  let customer_type := pyLower (sanitize_string form.customer_type)
  strContainsSub customer_type "existing" || strContainsSub customer_type "returning"

/-- Tag list shared by the payload builders (`HCP_LEAD_TAG`,
`HCP_WEBSITE_TAG`, each only when configured and non-blank). -/
def configTags (cfg : AppConfig) : List String :=
  (if cfg.HCP_LEAD_TAG ≠ "" ∧ pyStrip cfg.HCP_LEAD_TAG ≠ "" then [cfg.HCP_LEAD_TAG] else []) ++
  (if cfg.HCP_WEBSITE_TAG ≠ "" ∧ pyStrip cfg.HCP_WEBSITE_TAG ≠ "" then [cfg.HCP_WEBSITE_TAG]
    else [])

/-- Address entry placed inside the customer-creation payload
(`_create_customer` lines 387-404): each key only when truthy, country
defaulted to `"US"`, no state default. -/
def custAddrPayload (address : PyAddress) : AddressPayload :=
  { street := if strTruthy address.street then address.street else none,
    street_line_2 := if strTruthy address.street_line_2 then address.street_line_2 else none,
    city := if strTruthy address.city then address.city else none,
    state := if strTruthy address.state then address.state else none,
    zip := if strTruthy address.zip then address.zip else none,
    country := if strTruthy address.country then address.country else some "US" }

/-- Customer payload of `_create_customer`. -/
def customerPayload (cfg : AppConfig) (first_name last_name email : String)
    (phone : Option String) (address : PyAddress) (sms_consent : Bool) : CustomerPayload :=
  { first_name := if first_name ≠ "" then first_name else "Unknown",
    last_name := if last_name ≠ "" then last_name else "",
    notifications_enabled := sms_consent,
    email := if email ≠ "" then some email else none,
    mobile_number := if strTruthy phone then phone else none,
    lead_source := if cfg.HCP_LEAD_SOURCE ≠ "" then some cfg.HCP_LEAD_SOURCE else none,
    addresses := if pyAnyAddr address then some [custAddrPayload address] else none,
    tags := if configTags cfg ≠ [] then some (configTags cfg) else none }

/-- Model of `LeadCreator._create_customer`: build the payload, call the
directory, read back the id. -/
def createCustomerM (env : HcpEnv) (cfg : AppConfig) (first_name last_name email : String)
    (phone : Option String) (address : PyAddress) (sms_consent : Bool) :
    OrcM (Option String) := do
  let d := customerPayload cfg first_name last_name email phone address sms_consent
  let result ← hcpCall (DirCall.createCustomer d) (env.create_customer d)
  pure (result.map (fun c => c.id))

/-- Model of `LeadCreator._build_address_dict` (state always set with the
configured default, country defaulted to `"US"`; the built dict is never
empty, so the trailing `if address else None` of the source always keeps
it). -/
def build_address_dict (cfg : AppConfig) (parsed_address : PyAddress) :
    Option AddressPayload :=
  if !pyAnyAddr parsed_address then none
  else some
    { street := if strTruthy parsed_address.street then parsed_address.street else none,
      street_line_2 :=
        if strTruthy parsed_address.street_line_2 then parsed_address.street_line_2 else none,
      city := if strTruthy parsed_address.city then parsed_address.city else none,
      state := some (if strTruthy parsed_address.state then parsed_address.state.getD ""
        else cfg.DEFAULT_STATE),
      zip := if strTruthy parsed_address.zip then parsed_address.zip else none,
      country := if strTruthy parsed_address.country then parsed_address.country
        else some "US" }

/-- Model of `LeadCreator._build_address_dict_from_api` for a present
directory address (the caller guards `if full_address:`). -/
def build_address_dict_from_api (api_address : PyAddress) : AddressPayload :=
  { street := if strTruthy api_address.street then api_address.street else none,
    street_line_2 :=
      if strTruthy api_address.street_line_2 then api_address.street_line_2 else none,
    city := if strTruthy api_address.city then api_address.city else none,
    state := if strTruthy api_address.state then api_address.state else none,
    zip := if strTruthy api_address.zip then api_address.zip else none,
    country := if strTruthy api_address.country then api_address.country else some "US" }

/-- Address payload of `_add_address_to_customer` (type `"service"`, state
always set with the configured default, country defaulted to `"US"`). -/
def addressDataPayload (cfg : AppConfig) (address : PyAddress) : AddressPayload :=
  { type := some "service",
    street := if strTruthy address.street then address.street else none,
    street_line_2 := if strTruthy address.street_line_2 then address.street_line_2 else none,
    city := if strTruthy address.city then address.city else none,
    state := some (if strTruthy address.state then address.state.getD ""
      else cfg.DEFAULT_STATE),
    zip := if strTruthy address.zip then address.zip else none,
    country := if strTruthy address.country then address.country else some "US" }

/-- Model of `LeadCreator._add_address_to_customer`. -/
def addAddressToCustomerM (env : HcpEnv) (cfg : AppConfig) (customer_id : Option String)
    (address : PyAddress) : OrcM (Option String) := do
  if !pyAnyAddr address then pure none
  else
    let d := addressDataPayload cfg address
    let result ← hcpCall (DirCall.addCustomerAddress customer_id d)
      (env.add_customer_address customer_id d)
    pure (result.bind (fun a => a.id))

/-- Model of `LeadCreator._build_line_items`: map each selection through the
configured table (falling back to the raw token), request details only on
the first item. -/
def build_line_items (cfg : AppConfig) (service_details : List String)
    (service_request_details : String) : Option (List LineItem) :=
  if service_details = [] then none
  else some (service_details.enum.map (fun p =>
    let mapped := dictGetOpt cfg.SERVICE_DETAIL_MAPPING p.2
    let hcp_service_name := if strTruthy mapped then mapped.getD "" else p.2
    { name := hcp_service_name, kind := "labor",
      description :=
        if p.1 = 0 ∧ service_request_details ≠ "" then some service_request_details
        else none }))

/-- Python `f"{x:.0%}"` for the confidence line of the note (the source
formats with round-half-even; the half-integer difference only affects this
cosmetic string, which no claim inspects). -/
def formatPercentQ (x : ℚ) : String := toString (round (x * 100)) ++ "%"

/-- Model of `utils.format_lead_note`. -/
def format_lead_note (form : FormData) (match_info : Option MatchResult) : String :=
  let lines : List String :=
    ["=== Website Form Submission ===", ""] ++
    (if form.customer_type ≠ "" then ["Customer Type: " ++ form.customer_type] else []) ++
    (if form.preferred_contact ≠ "" then ["Preferred Contact: " ++ form.preferred_contact]
      else []) ++
    (if form.sms_consent.isSome then
      ["SMS Consent: " ++ (if form.sms_consent.getD false then "Yes" else "No")] else []) ++
    (if form.service_needed ≠ "" then ["", "Service Needed: " ++ form.service_needed]
      else []) ++
    (if form.service_details ≠ [] then
      ["", "Service Details:"] ++ form.service_details.map (fun s => "  • " ++ s) else []) ++
    (if form.service_request_details ≠ "" then
      ["", "Request Details:", form.service_request_details] else []) ++
    (if form.file_attachments ≠ [] then
      ["", "Attachments:"] ++ form.file_attachments.map (fun s => "  • " ++ s) else []) ++
    (match match_info with
      | some mi =>
        ["", "=== Customer Match Info ==="] ++
        [(if mi.match_type = "exact" then "✓ Exact match found (phone and email)"
          else if mi.match_type = "partial" then "⚠️  Partial match found"
          else "New customer (no existing record found)")] ++
        (if mi.confidence ≠ 0 then ["Confidence: " ++ formatPercentQ mi.confidence] else []) ++
        (if mi.warnings ≠ [] then [""] ++ mi.warnings.map (fun w => "⚠️  " ++ w) else [])
      | none => [])
  String.intercalate "\n" lines

/-- Model of `LeadCreator._create_lead_with_job_type`. -/
def createLeadWithJobTypeM (env : HcpEnv) (cfg : AppConfig) (customer_id : Option String)
    (form : FormData) (line_items : Option (List LineItem)) (note : String)
    (address_id : Option String) (address : Option AddressPayload) :
    OrcM (Option String) := do
  let mapped_job_type := dictGetD cfg.JOB_TYPE_MAPPING form.service_needed ""
  let job_type := if mapped_job_type = "" then "Plumbing Demand Maintenance"
    else mapped_job_type
  let lead_data : LeadPayload :=
    { customer_id := customer_id,
      job_type := job_type,
      assigned_employee_id :=
        if cfg.HCP_ASSIGNED_EMPLOYEE_ID ≠ "" then some cfg.HCP_ASSIGNED_EMPLOYEE_ID else none,
      address_id := if strTruthy address_id then address_id else none,
      address := address,
      tags := if configTags cfg ≠ [] then some (configTags cfg) else none,
      lead_source := if cfg.HCP_LEAD_SOURCE ≠ "" then some cfg.HCP_LEAD_SOURCE else none,
      line_items := match line_items with
        | some li => if li ≠ [] then some li else none
        | none => none,
      note := if note ≠ "" then some note else none }
  let result ← hcpCall (DirCall.createLead lead_data) (env.create_lead lead_data)
  pure (result.map (fun r => r.id))

/-- Lead-address resolution of `create_lead` (lines 268-304): for a new
customer the parsed address is used directly; for an existing customer a
just-created address id is preferred, otherwise the first matching directory
address, and a present id is expanded through the directory.  Returns the
pair `(address_id, address_for_lead)`. -/
def resolveLeadAddress (env : HcpEnv) (cfg : AppConfig) (match_result : MatchResult)
    (parsed_address : PyAddress) (customer_id : Option String)
    (new_address_id : Option String) :
    OrcM (Option String × Option AddressPayload) := do
  if match_result.should_create_new then
    pure ((none : Option String), build_address_dict cfg parsed_address)
  else do
    let address_id1 ←
      if strTruthy new_address_id then pure new_address_id
      else if strTruthy customer_id then do
        let customer_addresses ← hcpCall (DirCall.getCustomerAddresses customer_id)
          (env.get_customer_addresses customer_id)
        if customer_addresses ≠ [] then
          match find_matching_address_from_list customer_addresses parsed_address with
          | some matched_address => pure matched_address.id
          | none => pure none
        else pure none
      else pure none
    if strTruthy address_id1 ∧ strTruthy customer_id then do
      let full_address ← hcpCall (DirCall.getAddressById customer_id address_id1)
        (env.get_address_by_id customer_id address_id1)
      match full_address with
      | some fa => pure (address_id1, some (build_address_dict_from_api fa))
      | none => pure (address_id1, (none : Option AddressPayload))
    else pure (address_id1, (none : Option AddressPayload))

/-- Continuation of `create_lead` (lines 259-334) once the customer id and a
possibly just-created address id are known: line items, note, lead-address
resolution, lead creation, and the final result. -/
def createLeadRest (env : HcpEnv) (cfg : AppConfig) (form : FormData)
    (match_result : MatchResult) (parsed_address : PyAddress)
    (customer_id : Option String) (new_address_id : Option String) :
    OrcM LeadCreationResult := do
  let line_items :=
    if form.service_details ≠ [] then
      build_line_items cfg form.service_details form.service_request_details
    else none
  let note_text := format_lead_note form (some match_result)
  let step ← resolveLeadAddress env cfg match_result parsed_address customer_id
    new_address_id
  let lead_id ← createLeadWithJobTypeM env cfg customer_id form line_items note_text
    step.1 step.2
  if !strTruthy lead_id then
    pure { success := false, customer_id := customer_id, error := some "Failed to create lead" }
  else
    pure { success := true, customer_id := customer_id, job_id := lead_id,
           message := "Lead created successfully (match type: " ++ match_result.match_type ++ ")",
           warnings := match_result.warnings }

/-- New-address step for an existing customer (lines 252-258): when the match
attached customer data and `should_create_new_address` says so, add the
parsed address to the customer and keep the created id. -/
def resolveNewAddressId (env : HcpEnv) (cfg : AppConfig)
    (customer_data : Option Customer) (customer_id : Option String)
    (parsed_address : PyAddress) : OrcM (Option String) :=
  match customer_data with
  | some customer_data =>
    if should_create_new_address customer_data parsed_address then
      addAddressToCustomerM env cfg customer_id parsed_address
    else pure (none : Option String)
  | none => pure (none : Option String)

/-- Model of the body of `LeadCreator.create_lead` (the region inside the
`try`). -/
def createLeadBody (env : HcpEnv) (cfg : AppConfig) (form : FormData) :
    OrcM LeadCreationResult := do
  let email := pyLower (sanitize_string form.email)
  let nfl := computeNameFields form
  let sms_consent := form.sms_consent.getD false
  let phone := (normalize_phone form.phone cfg.DEFAULT_AREA_CODE).1
  let parsed_address := computeParsedAddress cfg form
  let is_existing_customer := computeIsExisting form
  let match_result ← findMatchingCustomerM env phone (some email) (some nfl.1)
    (some parsed_address) is_existing_customer
  if match_result.should_create_new then do
    let customer_id ← createCustomerM env cfg nfl.2.1 nfl.2.2 email phone
      parsed_address sms_consent
    if !strTruthy customer_id then
      pure { success := false, error := some "Failed to create customer" }
    else
      createLeadRest env cfg form match_result parsed_address customer_id none
  else do
    let customer_id := match_result.customer_id
    let new_address_id ← resolveNewAddressId env cfg match_result.customer_data
      customer_id parsed_address
    createLeadRest env cfg form match_result parsed_address customer_id new_address_id

/-- One run of the body from an empty call log. -/
def createLeadRun (env : HcpEnv) (cfg : AppConfig) (form : FormData) :
    Except String (LeadCreationResult × List DirCall) :=
  (createLeadBody env cfg form).run []

/-- The match stage of a `create_lead` run: the `find_matching_customer` call
exactly as `createLeadBody` issues it, run from the empty call log.  Its
outcome exposes the `MatchResult` the workflow proceeds with and the calls
the two searches logged. -/
def matchStage (env : HcpEnv) (cfg : AppConfig) (form : FormData) :
    Except String (MatchResult × List DirCall) :=
  (findMatchingCustomerM env (normalize_phone form.phone cfg.DEFAULT_AREA_CODE).1
    (some (pyLower (sanitize_string form.email))) (some (computeNameFields form).1)
    (some (computeParsedAddress cfg form)) (computeIsExisting form)).run []

/-- Model of `LeadCreator.create_lead`: the single `try`/`except` around the
whole workflow turns any fault into a failure result carrying `str(e)`. -/
def create_lead (env : HcpEnv) (cfg : AppConfig) (form : FormData) : LeadCreationResult :=
  match createLeadRun env cfg form with
  | .ok (r, _) => r
  | .error e => { success := false, error := some e }

/-- Directory stub whose every operation raises the same fault. -/
def allThrowEnv (e : String) : HcpEnv :=
  { search_customers := fun _ => .error e,
    create_customer := fun _ => .error e,
    add_customer_address := fun _ _ => .error e,
    get_customer_addresses := fun _ => .error e,
    get_address_by_id := fun _ _ => .error e,
    create_lead := fun _ => .error e }

/-! ## Helper lemmas: SequenceMatcher bounds -/

theorem ite_some_some {α : Type} (d : Prop) [Decidable d] (x y : α) :
    (if d then some x else some y) = some (if d then x else y) := by split <;> rfl

theorem commonRun_le_left : ∀ xs ys : List Char, commonRun xs ys ≤ xs.length
  | [], _ => by simp [commonRun]
  | _ :: _, [] => by simp [commonRun]
  | x :: xs, y :: ys => by
    simp only [commonRun, List.length_cons]
    split
    · exact Nat.succ_le_succ (commonRun_le_left xs ys)
    · exact Nat.zero_le _

theorem commonRun_le_right : ∀ xs ys : List Char, commonRun xs ys ≤ ys.length
  | [], _ => by simp [commonRun]
  | _ :: _, [] => by simp [commonRun]
  | x :: xs, y :: ys => by
    simp only [commonRun, List.length_cons]
    split
    · exact Nat.succ_le_succ (commonRun_le_right xs ys)
    · exact Nat.zero_le _

theorem commonRun_self : ∀ l : List Char, commonRun l l = l.length
  | [] => rfl
  | x :: xs => by simp [commonRun, commonRun_self xs]

theorem pickBest_eq_or_mem (l : List (Nat × Nat × Nat)) :
    ∀ init, pickBest init l = init ∨ pickBest init l ∈ l := by
  induction l with
  | nil => intro init; left; rfl
  | cons c cs ih =>
    intro init
    simp only [pickBest, List.foldl_cons]
    rcases ih (if init.2.2 < c.2.2 then c else init) with h | h
    · rw [pickBest] at h
      rw [h]
      split
      · right; exact List.mem_cons_self ..
      · left; rfl
    · right; exact List.mem_cons_of_mem _ h

theorem mem_flmCandidates {a b : List Char} {c : Nat × Nat × Nat}
    (h : c ∈ flmCandidates a b) :
    ∃ i j, i < a.length ∧ j < b.length ∧ c = (i, j, commonRun (a.drop i) (b.drop j)) := by
  simp only [flmCandidates, List.mem_flatMap, List.mem_map, List.mem_range] at h
  obtain ⟨i, hi, j, hj, rfl⟩ := h
  exact ⟨i, j, hi, hj, rfl⟩

theorem flm_le (a b : List Char) :
    (findLongestMatch a b).1 + (findLongestMatch a b).2.2 ≤ a.length ∧
      (findLongestMatch a b).2.1 + (findLongestMatch a b).2.2 ≤ b.length := by
  rcases pickBest_eq_or_mem (flmCandidates a b) (0, 0, 0) with h | h
  · unfold findLongestMatch
    rw [h]
    exact ⟨Nat.zero_le _, Nat.zero_le _⟩
  · unfold findLongestMatch
    obtain ⟨i, j, hi, hj, hc⟩ := mem_flmCandidates h
    rw [hc]
    constructor
    · show i + commonRun (a.drop i) (b.drop j) ≤ a.length
      have := commonRun_le_left (a.drop i) (b.drop j)
      simp only [List.length_drop] at this
      omega
    · show j + commonRun (a.drop i) (b.drop j) ≤ b.length
      have := commonRun_le_right (a.drop i) (b.drop j)
      simp only [List.length_drop] at this
      omega

theorem flmCandidates_k_le {a b : List Char} {c : Nat × Nat × Nat}
    (h : c ∈ flmCandidates a b) : c.2.2 ≤ a.length := by
  obtain ⟨i, j, _, _, rfl⟩ := mem_flmCandidates h
  show commonRun (a.drop i) (b.drop j) ≤ a.length
  have := commonRun_le_left (a.drop i) (b.drop j)
  simp only [List.length_drop] at this
  omega

theorem smMatchesGo_le : ∀ (fuel : Nat) (a b : List Char),
    smMatchesGo fuel a b ≤ a.length ∧ smMatchesGo fuel a b ≤ b.length := by
  intro fuel
  induction fuel with
  | zero => intro a b; simp [smMatchesGo]
  | succ n ih =>
    intro a b
    have hf := flm_le a b
    simp only [smMatchesGo]
    split
    · simp
    · constructor
      all_goals
        have h1 := ih (a.take (findLongestMatch a b).1) (b.take (findLongestMatch a b).2.1)
        have h2 := ih (a.drop ((findLongestMatch a b).1 + (findLongestMatch a b).2.2))
          (b.drop ((findLongestMatch a b).2.1 + (findLongestMatch a b).2.2))
        simp only [List.length_take, List.length_drop] at h1 h2
        split <;> split <;> omega

theorem smMatches_le_left (a b : List Char) : smMatches a b ≤ a.length :=
  (smMatchesGo_le a.length a b).1

theorem smMatches_le_right (a b : List Char) : smMatches a b ≤ b.length :=
  (smMatchesGo_le a.length a b).2

theorem ratioQ_nonneg (a b : List Char) : 0 ≤ ratioQ a b := by
  rw [ratioQ]
  split
  · norm_num
  · positivity

theorem ratioQ_le_one (a b : List Char) : ratioQ a b ≤ 1 := by
  rw [ratioQ]
  split
  · norm_num
  · rename_i h
    have hn : 0 < a.length + b.length := Nat.pos_of_ne_zero h
    have hq : (0:ℚ) < (a.length : ℚ) + (b.length : ℚ) := by exact_mod_cast hn
    rw [div_le_one hq]
    have h1 : (smMatches a b : ℚ) ≤ a.length := by exact_mod_cast smMatches_le_left a b
    have h2 : (smMatches a b : ℚ) ≤ b.length := by exact_mod_cast smMatches_le_right a b
    linarith

theorem strRatioQ_nonneg (s t : String) : 0 ≤ strRatioQ s t := ratioQ_nonneg ..

theorem strRatioQ_le_one (s t : String) : strRatioQ s t ≤ 1 := ratioQ_le_one ..

theorem pickBest_k_ge (l : List (Nat × Nat × Nat)) :
    ∀ init, init.2.2 ≤ (pickBest init l).2.2 ∧
      ∀ c ∈ l, c.2.2 ≤ (pickBest init l).2.2 := by
  induction l with
  | nil => intro init; exact ⟨Nat.le_refl _, by simp⟩
  | cons c cs ih =>
    intro init
    have hstep : pickBest init (c :: cs) =
        pickBest (if init.2.2 < c.2.2 then c else init) cs := rfl
    obtain ⟨h1, h2⟩ := ih (if init.2.2 < c.2.2 then c else init)
    rw [hstep]
    refine ⟨?_, ?_⟩
    · refine le_trans ?_ h1
      split
      · omega
      · exact Nat.le_refl _
    · intro x hx
      rcases List.mem_cons.mp hx with rfl | hx
      · refine le_trans ?_ h1
        split
        · exact Nat.le_refl _
        · omega
      · exact h2 x hx

theorem findLongestMatch_self (a : List Char) (ha : a ≠ []) :
    findLongestMatch a a = (0, 0, a.length) := by
  have hpos : 0 < a.length := List.length_pos.mpr ha
  have hmem : ((0, 0, commonRun a a) : Nat × Nat × Nat) ∈ flmCandidates a a := by
    simp only [flmCandidates, List.mem_flatMap, List.mem_map, List.mem_range]
    exact ⟨0, hpos, 0, hpos, by simp⟩
  have hk_ge : a.length ≤ (findLongestMatch a a).2.2 := by
    have := (pickBest_k_ge (flmCandidates a a) (0, 0, 0)).2 _ hmem
    rw [commonRun_self] at this
    exact this
  have hk_le : (findLongestMatch a a).2.2 ≤ a.length := by
    rcases pickBest_eq_or_mem (flmCandidates a a) (0, 0, 0) with h | h
    · unfold findLongestMatch
      rw [h]
      exact Nat.zero_le _
    · exact flmCandidates_k_le h
  have hf := flm_le a a
  have h1 : (findLongestMatch a a).1 = 0 := by omega
  have h2 : (findLongestMatch a a).2.1 = 0 := by omega
  have h3 : (findLongestMatch a a).2.2 = a.length := by omega
  calc findLongestMatch a a
      = ((findLongestMatch a a).1, (findLongestMatch a a).2.1,
          (findLongestMatch a a).2.2) := rfl
    _ = (0, 0, a.length) := by rw [h1, h2, h3]

theorem smMatches_self (a : List Char) : smMatches a a = a.length := by
  match ha : a with
  | [] => rfl
  | x :: t =>
    rw [smMatches, show (x :: t).length = t.length + 1 from rfl]
    simp only [smMatchesGo, findLongestMatch_self (x :: t) (by simp)]
    have hlen : (x :: t).length = t.length + 1 := rfl
    norm_num [hlen]

theorem ratioQ_self (a : List Char) : ratioQ a a = 1 := by
  rw [ratioQ]
  split
  · rfl
  · rename_i h
    rw [smMatches_self]
    have hn : a.length ≠ 0 := by omega
    have hq : (a.length : ℚ) ≠ 0 := by exact_mod_cast hn
    field_simp
    ring

theorem strRatioQ_self (s : String) : strRatioQ s s = 1 := ratioQ_self s.data

/-! ## Helper lemmas: compare_addresses -/

theorem compare_addresses_closed (a1 a2 : PyAddress) :
    compare_addresses a1 a2 =
      if noComparableField a1 a2 then 0
      else
        (fieldTerm a1.street a2.street (3/10) + fieldTerm a1.city a2.city (1/5) +
          fieldTerm a1.state a2.state (1/10) + fieldTerm a1.zip a2.zip (2/5)) /
          weightsTotal := by
  by_cases h1 : pyLowerStrip a1.street = "" ∨ pyLowerStrip a2.street = "" <;>
  by_cases h2 : pyLowerStrip a1.city = "" ∨ pyLowerStrip a2.city = "" <;>
  by_cases h3 : pyLowerStrip a1.state = "" ∨ pyLowerStrip a2.state = "" <;>
  by_cases h4 : pyLowerStrip a1.zip = "" ∨ pyLowerStrip a2.zip = "" <;>
  simp [compare_addresses, cmpFields, fieldTerm, noComparableField, ite_some_some,
    h1, h2, h3, h4] <;>
  ring

theorem fieldTerm_eq_spec (v1 v2 : Option String) (w : ℚ) :
    (if specComparable v1 v2 then specFieldScore v1 v2 * w else 0) = fieldTerm v1 v2 w := by
  by_cases h : pyLowerStrip v1 = "" ∨ pyLowerStrip v2 = ""
  · rw [fieldTerm, if_pos h, if_neg (by simp [specComparable, not_or] at h ⊢; tauto)]
  · rw [fieldTerm, if_neg h, if_pos (by simp [specComparable, not_or] at h ⊢; tauto)]
    rw [specFieldScore]
    by_cases he : pyLowerStrip v1 = pyLowerStrip v2
    · rw [if_pos he, he, strRatioQ_self, one_mul]
    · rw [if_neg he]

theorem ite_zero_nonneg (p : Prop) [Decidable p] (w : ℚ) (hw : 0 ≤ w) :
    0 ≤ (if p then w else 0) := by
  split
  · exact hw
  · exact le_refl 0

theorem specWeightSum_zero_iff (a1 a2 : PyAddress) :
    specWeightSum a1 a2 = 0 ↔ noComparableField a1 a2 := by
  have b1 := ite_zero_nonneg (specComparable a1.zip a2.zip) ((2:ℚ)/5) (by norm_num)
  have b2 := ite_zero_nonneg (specComparable a1.street a2.street) ((3:ℚ)/10) (by norm_num)
  have b3 := ite_zero_nonneg (specComparable a1.city a2.city) ((1:ℚ)/5) (by norm_num)
  have b4 := ite_zero_nonneg (specComparable a1.state a2.state) ((1:ℚ)/10) (by norm_num)
  constructor
  · intro hs
    by_contra hc
    rw [noComparableField, not_and_or, not_and_or, not_and_or] at hc
    have hpos : 0 < specWeightSum a1 a2 := by
      rcases hc with h | h | h | h
      · have s : specComparable a1.street a2.street := by
          rw [specComparable]
          push_neg at h
          exact h
        rw [specWeightSum, if_pos s]
        linarith
      · have s : specComparable a1.city a2.city := by
          rw [specComparable]
          push_neg at h
          exact h
        rw [specWeightSum, if_pos s]
        linarith
      · have s : specComparable a1.state a2.state := by
          rw [specComparable]
          push_neg at h
          exact h
        rw [specWeightSum, if_pos s]
        linarith
      · have s : specComparable a1.zip a2.zip := by
          rw [specComparable]
          push_neg at h
          exact h
        rw [specWeightSum, if_pos s]
        linarith
    linarith
  · intro hc
    obtain ⟨c1, c2, c3, c4⟩ := hc
    have n1 : ¬ specComparable a1.street a2.street := by rw [specComparable]; tauto
    have n2 : ¬ specComparable a1.city a2.city := by rw [specComparable]; tauto
    have n3 : ¬ specComparable a1.state a2.state := by rw [specComparable]; tauto
    have n4 : ¬ specComparable a1.zip a2.zip := by rw [specComparable]; tauto
    simp [specWeightSum, n1, n2, n3, n4]

theorem fieldTerm_nonneg (v1 v2 : Option String) (w : ℚ) (hw : 0 ≤ w) :
    0 ≤ fieldTerm v1 v2 w := by
  rw [fieldTerm]
  split
  · exact le_refl 0
  · exact mul_nonneg (strRatioQ_nonneg ..) hw

theorem compare_addresses_nonneg (a1 a2 : PyAddress) : 0 ≤ compare_addresses a1 a2 := by
  rw [compare_addresses_closed]
  split
  · exact le_refl 0
  · have w1 := fieldTerm_nonneg a1.street a2.street (3/10) (by norm_num)
    have w2 := fieldTerm_nonneg a1.city a2.city (1/5) (by norm_num)
    have w3 := fieldTerm_nonneg a1.state a2.state (1/10) (by norm_num)
    have w4 := fieldTerm_nonneg a1.zip a2.zip (2/5) (by norm_num)
    have ht : weightsTotal = 1 := by norm_num [weightsTotal]
    rw [ht]
    linarith

theorem compare_addresses_zip_only :
    compare_addresses { zip := some "94102" } { zip := some "94102" } = 2/5 := by
  have k2 : pyLowerStrip (some "94102") = "94102" := by decide
  have k0 : pyLowerStrip (none : Option String) = "" := by decide
  have hne : ("94102" : String) ≠ "" := by decide
  rw [compare_addresses_closed]
  rw [if_neg (by rw [noComparableField]; simp [k2, k0])]
  simp [fieldTerm, k2, k0, hne, strRatioQ_self, weightsTotal]
  norm_num

/-! ## Helper lemmas: candidate scoring and the matcher -/

theorem foldl_max_add (addr : PyAddress) (l : List PyAddress) :
    ∀ s : ℚ,
      l.foldl (fun score a => max score (score + compare_addresses addr a * (1/2))) s =
        s + (l.map (fun a => compare_addresses addr a)).sum * (1/2) := by
  induction l with
  | nil => intro s; simp
  | cons a t ih =>
    intro s
    have hnn := compare_addresses_nonneg addr a
    have hstep : max s (s + compare_addresses addr a * (1/2)) =
        s + compare_addresses addr a * (1/2) :=
      max_eq_right (by linarith)
    simp only [List.foldl_cons, List.map_cons, List.sum_cons, hstep, ih]
    ring

theorem calculate_confidence_bounds (c : Customer) (phone email name : Option String) :
    0 ≤ calculate_confidence c phone email name ∧
      calculate_confidence c phone email name ≤ 1 := by
  simp only [calculate_confidence]
  have h1 := strRatioQ_nonneg (pyLower (name.getD "")) (pyLower (candidateFullName c))
  have h2 := strRatioQ_le_one (pyLower (name.getD "")) (pyLower (candidateFullName c))
  split_ifs <;> constructor <;> linarith

theorem matchFromResults_invariants (pm em : List Customer)
    (phone email name : Option String) (addr : Option PyAddress) (flag : Bool) :
    ((matchFromResults pm em phone email name addr flag).match_type = "exact" →
      (matchFromResults pm em phone email name addr flag).confidence = 1 ∧
        (matchFromResults pm em phone email name addr flag).should_create_new = false) ∧
    ((matchFromResults pm em phone email name addr flag).match_type = "none" →
      (matchFromResults pm em phone email name addr flag).customer_id = none ∧
        (matchFromResults pm em phone email name addr flag).should_create_new = true) := by
  simp only [matchFromResults]
  split_ifs <;> simp

theorem matchFromResults_confidence_bounds (pm em : List Customer)
    (phone email name : Option String) (addr : Option PyAddress) (flag : Bool) :
    0 ≤ (matchFromResults pm em phone email name addr flag).confidence ∧
      (matchFromResults pm em phone email name addr flag).confidence ≤ 1 := by
  simp only [matchFromResults]
  have hb := calculate_confidence_bounds
    (select_best_match (deduplicate_customers (pm ++ em)) name addr) phone email name
  split_ifs <;> simp <;> constructor <;> linarith [hb.1, hb.2]

/-! ## Helper lemmas: address reconciliation -/

theorem find?_decomp {α : Type} (p : α → Bool) (l : List α) (a : α)
    (h : l.find? p = some a) :
    ∃ l1 l2, l = l1 ++ a :: l2 ∧ p a = true ∧ ∀ x ∈ l1, p x = false := by
  induction l with
  | nil => simp at h
  | cons b t ih =>
    cases hb : p b with
    | true =>
      rw [List.find?_cons_of_pos _ hb] at h
      obtain rfl := Option.some_inj.mp h
      exact ⟨[], t, rfl, hb, by simp⟩
    | false =>
      rw [List.find?_cons_of_neg _ (by simp [hb])] at h
      obtain ⟨l1, l2, rfl, hpa, hl1⟩ := ih h
      refine ⟨b :: l1, l2, rfl, hpa, ?_⟩
      intro x hx
      rcases List.mem_cons.mp hx with rfl | hx
      · exact hb
      · exact hl1 x hx

theorem shouldCreate_empty_address (c : Customer) (na : PyAddress)
    (h : ¬ pyAnyAddr na = true) : should_create_new_address c na = false := by
  simp [should_create_new_address, h]

theorem shouldCreate_no_known (c : Customer) (na : PyAddress) (h : pyAnyAddr na = true)
    (he : c.addresses = []) : should_create_new_address c na = true := by
  simp [should_create_new_address, h, he]

theorem shouldCreate_threshold (c : Customer) (na : PyAddress) (h : pyAnyAddr na = true)
    (he : c.addresses ≠ []) :
    (should_create_new_address c na = true ↔
      ∀ ea ∈ c.addresses, ¬ ((4:ℚ)/5 < compare_addresses na ea)) := by
  rw [should_create_new_address]
  rw [if_neg (by simp [h])]
  rw [if_neg he]
  cases hany : c.addresses.any
      (fun existing_addr => decide ((4:ℚ)/5 < compare_addresses na existing_addr)) with
  | true =>
    rw [if_pos rfl]
    simp only [List.any_eq_true, decide_eq_true_eq] at hany
    obtain ⟨ea, hea, hgt⟩ := hany
    constructor
    · intro hfalse
      exact absurd hfalse (by simp)
    · intro hall
      exact absurd hgt (hall ea hea)
  | false =>
    rw [if_neg (by simp)]
    simp only [List.any_eq_false, decide_eq_true_eq] at hany
    constructor
    · intro _
      exact hany
    · intro _
      rfl

theorem findAddr_none (addrs : List PyAddress) (na : PyAddress)
    (h : find_matching_address_from_list addrs na = none) :
    ∀ ea ∈ addrs, ¬ ((4:ℚ)/5 ≤ compare_addresses (apiCmpView ea) na) := by
  rw [find_matching_address_from_list] at h
  by_cases he : addrs = []
  · subst he; simp
  · rw [if_neg he] at h
    rw [List.find?_eq_none] at h
    intro ea hea hle
    have := h ea hea
    simp only [decide_eq_true_eq] at this
    exact this hle

theorem findAddr_some (addrs : List PyAddress) (na : PyAddress) (ea : PyAddress)
    (h : find_matching_address_from_list addrs na = some ea) :
    ∃ l1 l2, addrs = l1 ++ ea :: l2 ∧
      (4:ℚ)/5 ≤ compare_addresses (apiCmpView ea) na ∧
      ∀ x ∈ l1, ¬ ((4:ℚ)/5 ≤ compare_addresses (apiCmpView x) na) := by
  rw [find_matching_address_from_list] at h
  by_cases he : addrs = []
  · subst he; simp at h
  · rw [if_neg he] at h
    obtain ⟨l1, l2, rfl, hpa, hl1⟩ := find?_decomp _ _ _ h
    refine ⟨l1, l2, rfl, ?_, ?_⟩
    · simpa using hpa
    · intro x hx
      have := hl1 x hx
      simpa using this

/-! ## Helper lemmas: orchestration runs -/

theorem hcpCall_run_ok {α : Type} (c : DirCall) (v : α) (s : List DirCall) :
    (hcpCall c (Except.ok v)).run s = .ok (v, s ++ [c]) := rfl

theorem hcpCall_run_error {α : Type} (c : DirCall) (e : String) (s : List DirCall) :
    (hcpCall c (Except.error e : Except String α)).run s = .error e := rfl

theorem hcpCall_run {α : Type} (c : DirCall) (r : Except String α) (s : List DirCall) :
    (hcpCall c r).run s = match r with
      | .ok v => .ok (v, s ++ [c])
      | .error e => .error e := by
  cases r <;> rfl

theorem orcRun_bind {α β : Type} (x : OrcM α) (f : α → OrcM β) (s : List DirCall) :
    (x >>= f).run s = match x.run s with
      | .ok (a, s') => (f a).run s'
      | .error err => .error err := by
  cases h : x.run s with
  | ok v =>
    simp only [StateT.run, bind, StateT.bind, Except.bind] at h ⊢
    rw [h]
  | error err =>
    simp only [StateT.run, bind, StateT.bind, Except.bind] at h ⊢
    rw [h]

theorem orcRun_pure {α : Type} (a : α) (s : List DirCall) :
    (pure a : OrcM α).run s = .ok (a, s) := rfl

theorem strTruthy_none : strTruthy none = false := rfl

theorem matchFromResults_nil (phone email name : Option String) (addr : Option PyAddress)
    (flag : Bool) :
    matchFromResults [] [] phone email name addr flag =
      { match_type := "none", confidence := 0, customer_id := none, customer_data := none,
        warnings := [], should_create_new := true } := rfl

theorem matchFromResults_nil_scn (phone email name : Option String)
    (addr : Option PyAddress) (flag : Bool) :
    (matchFromResults [] [] phone email name addr flag).should_create_new = true := rfl

theorem findMatchingCustomerM_calls (env : HcpEnv) (p e n : Option String)
    (a : Option PyAddress) (f : Bool) (s s' : List DirCall) (mr : MatchResult)
    (h : (findMatchingCustomerM env p e n a f).run s = .ok (mr, s')) :
    ∀ c ∈ s', c ∈ s ∨ ∃ q, c = DirCall.searchCustomers q := by
  by_cases hp : strTruthy p = true <;>
  by_cases he : strTruthy e = true <;>
  simp only [findMatchingCustomerM, hp, he, if_true, if_false, Bool.not_eq_true,
    Bool.false_eq_true, orcRun_bind, orcRun_pure, hcpCall_run] at h
  · cases h1 : env.search_customers (p.getD "") with
    | error er => rw [h1] at h; exact absurd h (by simp)
    | ok v1 =>
      rw [h1] at h
      simp only [Except.ok.injEq, Prod.mk.injEq] at h
      cases h2 : env.search_customers (e.getD "") with
      | error er => rw [h2] at h; exact absurd h (by simp)
      | ok v2 =>
        rw [h2] at h
        simp only [Except.ok.injEq, Prod.mk.injEq] at h
        obtain ⟨-, h⟩ := h
        subst h
        intro c hc
        simp only [List.mem_append, List.mem_singleton] at hc
        rcases hc with (hc | hc) | hc
        · exact Or.inl hc
        · exact Or.inr ⟨_, hc⟩
        · exact Or.inr ⟨_, hc⟩
  · cases h1 : env.search_customers (p.getD "") with
    | error er => rw [h1] at h; exact absurd h (by simp)
    | ok v1 =>
      rw [h1] at h
      simp only [Except.ok.injEq, Prod.mk.injEq] at h
      obtain ⟨-, h⟩ := h
      subst h
      intro c hc
      simp only [List.mem_append, List.mem_singleton] at hc
      rcases hc with hc | hc
      · exact Or.inl hc
      · exact Or.inr ⟨_, hc⟩
  · cases h2 : env.search_customers (e.getD "") with
    | error er => rw [h2] at h; exact absurd h (by simp)
    | ok v2 =>
      rw [h2] at h
      simp only [Except.ok.injEq, Prod.mk.injEq] at h
      obtain ⟨-, h⟩ := h
      subst h
      intro c hc
      simp only [List.mem_append, List.mem_singleton] at hc
      rcases hc with hc | hc
      · exact Or.inl hc
      · exact Or.inr ⟨_, hc⟩
  · simp only [Except.ok.injEq, Prod.mk.injEq] at h
    obtain ⟨-, h⟩ := h
    subst h
    exact fun c hc => Or.inl hc

theorem createLeadRest_leadFail (env : HcpEnv) (cfg : AppConfig) (form : FormData)
    (mr : MatchResult) (pa : PyAddress) (cid naid : Option String)
    (hcl : ∀ d, env.create_lead d = .ok none) :
    ∀ (s : List DirCall) (r : LeadCreationResult) (log : List DirCall),
      (createLeadRest env cfg form mr pa cid naid).run s = .ok (r, log) →
      r = { success := false, customer_id := cid, job_id := none, message := "",
            warnings := [], error := some "Failed to create lead" } := by
  intro s r log hrun
  simp only [createLeadRest, orcRun_bind, createLeadWithJobTypeM, hcl, hcpCall_run_ok,
    orcRun_pure, Option.map_none', strTruthy_none, Bool.not_false] at hrun
  split at hrun
  · simp only [if_true, orcRun_pure, Except.ok.injEq, Prod.mk.injEq] at hrun
    exact hrun.1.symm
  · exact absurd hrun (by simp)

theorem createLead_custFail (env : HcpEnv) (cfg : AppConfig) (form : FormData)
    (mr : MatchResult) (s₁ : List DirCall) (r : LeadCreationResult) (log : List DirCall)
    (hms : matchStage env cfg form = .ok (mr, s₁))
    (hscn : mr.should_create_new = true)
    (hc : ∀ d, env.create_customer d = .ok none)
    (hrun : createLeadRun env cfg form = .ok (r, log)) :
    r = { success := false, customer_id := none, job_id := none, message := "",
          warnings := [], error := some "Failed to create customer" } ∧
      ∀ ld, DirCall.createLead ld ∉ log := by
  rw [matchStage] at hms
  simp only [createLeadRun, createLeadBody, orcRun_bind] at hrun
  rw [hms] at hrun
  simp only [hscn, if_true, createCustomerM, orcRun_bind, hc, hcpCall_run_ok,
    orcRun_pure, Option.map_none', strTruthy_none, Bool.not_false,
    Except.ok.injEq, Prod.mk.injEq] at hrun
  obtain ⟨rfl, rfl⟩ := hrun
  refine ⟨rfl, fun ld hmem => ?_⟩
  simp only [List.mem_append, List.mem_singleton] at hmem
  rcases hmem with hmem | hmem
  · rcases findMatchingCustomerM_calls env _ _ _ _ _ [] s₁ mr hms _ hmem with hin | ⟨q, hq⟩
    · simp at hin
    · exact absurd hq (by simp)
  · exact absurd hmem (by simp)

theorem createLead_leadFail_created (env : HcpEnv) (cfg : AppConfig) (form : FormData)
    (mr : MatchResult) (s₁ : List DirCall) (c : Customer) (r : LeadCreationResult)
    (log : List DirCall)
    (hms : matchStage env cfg form = .ok (mr, s₁))
    (hscn : mr.should_create_new = true)
    (hcid : c.id ≠ "")
    (hc : ∀ d, env.create_customer d = .ok (some c))
    (hcl : ∀ d, env.create_lead d = .ok none)
    (hrun : createLeadRun env cfg form = .ok (r, log)) :
    r = { success := false, customer_id := some c.id, job_id := none, message := "",
          warnings := [], error := some "Failed to create lead" } := by
  have hTr : strTruthy (some c.id) = true := by simp [strTruthy, hcid]
  rw [matchStage] at hms
  simp only [createLeadRun, createLeadBody, orcRun_bind] at hrun
  rw [hms] at hrun
  simp only [hscn, if_true, createCustomerM, orcRun_bind, hc, hcpCall_run_ok,
    orcRun_pure, Option.map_some', hTr, Bool.not_true, Bool.false_eq_true,
    if_false] at hrun
  exact createLeadRest_leadFail env cfg form mr _ _ _ hcl _ _ _ hrun

theorem createLead_leadFail_existing (env : HcpEnv) (cfg : AppConfig) (form : FormData)
    (mr : MatchResult) (s₁ : List DirCall) (r : LeadCreationResult) (log : List DirCall)
    (hms : matchStage env cfg form = .ok (mr, s₁))
    (hscn : mr.should_create_new = false)
    (hcl : ∀ d, env.create_lead d = .ok none)
    (hrun : createLeadRun env cfg form = .ok (r, log)) :
    r = { success := false, customer_id := mr.customer_id, job_id := none, message := "",
          warnings := [], error := some "Failed to create lead" } := by
  rw [matchStage] at hms
  simp only [createLeadRun, createLeadBody, orcRun_bind] at hrun
  rw [hms] at hrun
  simp only [hscn, Bool.false_eq_true, if_false, orcRun_bind] at hrun
  split at hrun
  · exact createLeadRest_leadFail env cfg form mr _ _ _ hcl _ _ _ hrun
  · exact absurd hrun (by simp)

/-! ## Helper lemmas: street_line_2 absence -/

theorem addrPattern3_sl2 (l : List Char) : (addrPattern3 l).street_line_2 = none := by
  simp only [addrPattern3]
  split
  · rfl
  · split
    · split <;> rfl
    · rfl

theorem parse_address_sl2 (s : String) : (parse_address s).street_line_2 = none := by
  simp only [parse_address]
  split
  · rfl
  · split
    · rfl
    · split
      · rfl
      · split
        · exact addrPattern3_sl2 _
        · rfl

theorem computeParsedAddress_sl2 (cfg : AppConfig) (form : FormData) :
    (computeParsedAddress cfg form).street_line_2 = none := by
  rw [computeParsedAddress]
  split
  · rfl
  · exact parse_address_sl2 _

theorem custAddrPayload_sl2 (pa : PyAddress) (h : pa.street_line_2 = none) :
    (custAddrPayload pa).street_line_2 = none := by
  rw [custAddrPayload, h]
  rfl

theorem addressDataPayload_sl2 (cfg : AppConfig) (pa : PyAddress)
    (h : pa.street_line_2 = none) : (addressDataPayload cfg pa).street_line_2 = none := by
  rw [addressDataPayload, h]
  rfl

theorem build_address_dict_sl2 (cfg : AppConfig) (pa : PyAddress) (a : AddressPayload)
    (h : pa.street_line_2 = none) (ha : build_address_dict cfg pa = some a) :
    a.street_line_2 = none := by
  rw [build_address_dict] at ha
  split at ha
  · exact absurd ha (by simp)
  · obtain rfl := Option.some_inj.mp ha
    rw [h]
    rfl

set_option maxHeartbeats 1000000 in
theorem createLeadBody_frame (env : HcpEnv) (cfg : AppConfig) (f g : FormData)
    (h1 : f.phone = g.phone) (h2 : f.email = g.email) (h3 : f.first_name = g.first_name)
    (h4 : f.last_name = g.last_name) (h5 : f.name = g.name) (h6 : f.address = g.address)
    (h7 : f.customer_type = g.customer_type) (h8 : f.sms_consent = g.sms_consent)
    (h9 : f.street = g.street) (h10 : f.city = g.city) (h11 : f.state = g.state)
    (h12 : f.zip = g.zip) (h13 : f.service_details = g.service_details)
    (h14 : f.service_needed = g.service_needed)
    (h15 : f.service_request_details = g.service_request_details)
    (h16 : f.preferred_contact = g.preferred_contact)
    (h17 : f.file_attachments = g.file_attachments) :
    createLeadBody env cfg f = createLeadBody env cfg g := by
  cases f
  cases g
  simp only at h1 h2 h3 h4 h5 h6 h7 h8 h9 h10 h11 h12 h13 h14 h15 h16 h17
  subst h1 h2 h3 h4 h5 h6 h7 h8 h9 h10 h11 h12 h13 h14 h15 h16 h17
  rfl

/-! ## Claim theorems -/

/-- C1 counterexample: on two addresses whose only comparable field pair is an
identical zip code, the code returns `0.4` (weighted sum over the full weight
total) while the claimed present-fields normalization would return `1.0`, so
the claim as stated is false. -/
theorem c1_counterexample :
    compare_addresses { zip := some "94102" } { zip := some "94102" } ≠
      specAddressScoreClaim { zip := some "94102" } { zip := some "94102" } := by
  have k2 : pyLowerStrip (some "94102") = "94102" := by decide
  have k0 : pyLowerStrip (none : Option String) = "" := by decide
  rw [compare_addresses_zip_only, specAddressScoreClaim]
  have hcz : specComparable (some "94102") (some "94102") := by
    rw [specComparable, k2]
    simp
  have hn : ¬ specComparable (none : Option String) none := by
    rw [specComparable, k0]
    simp
  rw [specWeightSum, specWeightedNum]
  simp [hcz, hn, specFieldScore, k2]
  norm_num

/-- C1 (amended): for every pair of parsed addresses the overall
`AddressSimilarity` score equals the weighted per-field sum (weights zip 0.4,
street 0.3, city 0.2, state 0.1, over only the field pairs non-empty on both
sides) divided by the constant total weight `1.0` — not by the sum of the
present weights — and is `0.0` when no field pair is comparable. -/
theorem c1_address_score (a1 a2 : PyAddress) :
    compare_addresses a1 a2 = specAddressScoreAmended a1 a2 := by
  rw [compare_addresses_closed, specAddressScoreAmended]
  by_cases hnc : noComparableField a1 a2
  · rw [if_pos hnc, if_pos ((specWeightSum_zero_iff a1 a2).mpr hnc)]
  · rw [if_neg hnc, if_neg (fun hz => hnc ((specWeightSum_zero_iff a1 a2).mp hz))]
    rw [specWeightedNum, fieldTerm_eq_spec, fieldTerm_eq_spec, fieldTerm_eq_spec,
      fieldTerm_eq_spec]
    ring

/-- C2 counterexample: for a candidate with two stored addresses identical to
the input address, the loop adds `0.5·similarity` twice (total `0.4`), while
the claimed once-added maximum would give `0.2`, so the claim as stated is
false. -/
theorem c2_counterexample :
    scoreCandidate none (some { zip := some "94102" })
        { id := "c1", addresses := [{ zip := some "94102" }, { zip := some "94102" }] } ≠
      specScoreCandidateMax none (some { zip := some "94102" })
        { id := "c1", addresses := [{ zip := some "94102" }, { zip := some "94102" }] } := by
  have hsum : scoreCandidate none (some ({ zip := some "94102" } : PyAddress))
      { id := "c1", addresses := [{ zip := some "94102" }, { zip := some "94102" }] } =
      scoreCandidate none none
          { id := "c1", addresses := [{ zip := some "94102" }, { zip := some "94102" }] } +
        (([{ zip := some "94102" }, { zip := some "94102" }] : List PyAddress).map
          (fun a => compare_addresses { zip := some "94102" } a)).sum * (1/2) := by
    rw [scoreCandidate, scoreCandidate]
    rw [if_pos (show ([{ zip := some "94102" }, { zip := some "94102" }] :
      List PyAddress) ≠ [] by simp)]
    exact foldl_max_add _ _ _
  rw [hsum, specScoreCandidateMax]
  simp only [List.map_cons, List.map_nil, List.sum_cons, List.sum_nil,
    compare_addresses_zip_only, List.foldl_cons, List.foldl_nil]
  rw [scoreCandidate]
  simp [strTruthy, max_def]
  norm_num

/-- C2 (amended): in candidate scoring, when an input address is given, the
loop `score = max(score, score + similarity*0.5)` always takes its additive
branch, so the address contribution equals `0.5` times the SUM of the address
similarities over all of the candidate's known addresses — once per address,
not the once-added maximum. -/
theorem c2_candidate_score (name : Option String) (addr : PyAddress) (c : Customer) :
    scoreCandidate name (some addr) c =
      scoreCandidate name none c +
        ((c.addresses.map (fun a => compare_addresses addr a)).sum) * (1/2) := by
  rw [scoreCandidate, scoreCandidate]
  by_cases h : c.addresses = []
  · simp [h]
  · rw [if_pos (show c.addresses ≠ [] from h)]
    exact foldl_max_add addr c.addresses _

/-- C3 counterexample: the top-level handler returns `error=str(e)`, so the
failure result varies with — and textually contains — the internal fault
message; it is not a generic message that hides internal details. -/
theorem c3_counterexample :
    (create_lead (allThrowEnv "internal detail alpha") ({} : AppConfig)
        ({} : FormData)).error = some "internal detail alpha" ∧
    (create_lead (allThrowEnv "internal detail beta") ({} : AppConfig)
        ({} : FormData)).error = some "internal detail beta" :=
  ⟨rfl, rfl⟩

/-- C3 (amended): any fault raised during orchestration — here one raised by
whichever directory operation the workflow reaches first — is caught once at
the top level and produces a failure result whose `error` is the fault's own
message (`str(e)`); the internal detail is surfaced to the caller, not
hidden behind a generic message. -/
theorem c3_top_level_catch (cfg : AppConfig) (form : FormData) (e : String) :
    create_lead (allThrowEnv e) cfg form =
      { success := false, customer_id := none, job_id := none, message := "",
        warnings := [], error := some e } := by
  rw [create_lead, createLeadRun, createLeadBody]
  by_cases h1 : strTruthy ((normalize_phone form.phone cfg.DEFAULT_AREA_CODE).1) = true <;>
  by_cases h2 : strTruthy (some (pyLower (sanitize_string form.email))) = true <;>
  simp only [findMatchingCustomerM, allThrowEnv, h1, h2, if_true, if_false,
    Bool.not_eq_true, orcRun_bind, hcpCall_run_error, hcpCall_run_ok, orcRun_pure,
    matchFromResults_nil, createCustomerM] <;>
  rfl

/-- C4: every `MatchResult` returned by `find_matching_customer` satisfies
both invariants: an exact match has confidence `1.0` and does not create a
new customer; a no-match result has no customer id and does create a new
customer. -/
theorem c4_match_result_invariants (search : String → List Customer)
    (phone email name : Option String) (address : Option PyAddress) (flag : Bool) :
    ((find_matching_customer search phone email name address flag).match_type = "exact" →
      (find_matching_customer search phone email name address flag).confidence = 1 ∧
        (find_matching_customer search phone email name address flag).should_create_new
          = false) ∧
    ((find_matching_customer search phone email name address flag).match_type = "none" →
      (find_matching_customer search phone email name address flag).customer_id = none ∧
        (find_matching_customer search phone email name address flag).should_create_new
          = true) :=
  matchFromResults_invariants _ _ phone email name address flag

/-- C4 witness: on the empty directory stub the result is a no-match, and the
second invariant applies. -/
theorem c4_witness :
    (find_matching_customer (fun _ => []) none none none none false).customer_id = none ∧
      (find_matching_customer (fun _ => []) none none none none false).should_create_new
        = true :=
  (c4_match_result_invariants (fun _ => []) none none none none false).2 rfl

/-- C5: every `MatchResult` returned by `find_matching_customer` — over all
combinations of supplied/absent phone, email, name and any candidate set —
has a confidence in the closed interval `[0, 1]`. -/
theorem c5_confidence_bounds (search : String → List Customer)
    (phone email name : Option String) (address : Option PyAddress) (flag : Bool) :
    0 ≤ (find_matching_customer search phone email name address flag).confidence ∧
      (find_matching_customer search phone email name address flag).confidence ≤ 1 :=
  matchFromResults_confidence_bounds _ _ phone email name address flag

/-- C6 counterexample: on the empty input the normalizer returns early with an
absent value and NO warning, while the claimed rules require every failing
length to come with a warning; the claim as stated fails at `""`. -/
theorem c6_counterexample : phoneClaimC6 "" "415" = false := by decide

/-- C6 (amended): after stripping non-digits, `normalize_phone` applies the
claimed rules in order — 10 digits, 11 digits led by 1, 7 digits with the
default area code, more than 11 digits truncated to the last 10 with a
truncation warning, anything else failing with a warning — except that an
empty raw input returns an absent value with no warning at all. -/
theorem c6_phone_rules (phone dac : String) :
    ((phoneDigits phone).length = 10 →
      normalize_phone phone dac = (some ("+1" ++ phoneDigits phone), [])) ∧
    ((phoneDigits phone).length = 11 ∧ (phoneDigits phone).data.take 1 = ['1'] →
      normalize_phone phone dac = (some ("+" ++ phoneDigits phone), [])) ∧
    ((phoneDigits phone).length = 7 →
      normalize_phone phone dac = (some ("+1" ++ dac ++ phoneDigits phone), [])) ∧
    ((phoneDigits phone).length > 11 →
      normalize_phone phone dac =
        (some ("+1" ++ String.mk ((phoneDigits phone).data.drop
          ((phoneDigits phone).length - 10))), [PhoneWarning.tooLong])) ∧
    (¬ (phoneDigits phone).length = 10 →
      ¬ ((phoneDigits phone).length = 11 ∧ (phoneDigits phone).data.take 1 = ['1']) →
      ¬ (phoneDigits phone).length = 7 → ¬ (phoneDigits phone).length > 11 →
      normalize_phone phone dac =
        (none, if phone = "" then [] else [PhoneWarning.invalid])) := by
  by_cases hp : phone = ""
  · subst hp
    refine ⟨?_, ?_, ?_, ?_, ?_⟩
    · intro h
      exact absurd h (by decide)
    · intro h
      exact absurd h (by decide)
    · intro h
      exact absurd h (by decide)
    · intro h
      exact absurd h (by decide)
    · intro h1 h2 h3 h4
      rfl
  · refine ⟨?_, ?_, ?_, ?_, ?_⟩
    · intro h
      rw [normalize_phone, if_neg hp, if_pos h]
    · intro h
      rw [normalize_phone, if_neg hp, if_neg (by omega), if_pos h]
    · intro h
      rw [normalize_phone, if_neg hp, if_neg (by omega), if_neg (by omega), if_pos h]
    · intro h
      rw [normalize_phone, if_neg hp, if_neg (by omega), if_neg (by omega),
        if_neg (by omega), if_pos h]
    · intro h1 h2 h3 h4
      rw [normalize_phone, if_neg hp, if_neg h1, if_neg h2, if_neg h3, if_neg h4,
        if_neg hp]

/-- C6 witness: the ten-digit rule applied to the documented example. -/
theorem c6_witness :
    normalize_phone "(415) 555-1234" "415" = (some "+14155551234", []) :=
  (c6_phone_rules "(415) 555-1234" "415").1 (by decide)

/-- C7: address reconciliation decides exactly as claimed — an all-empty
proposed address needs no creation; a customer without known addresses needs
creation; otherwise creation is needed iff no known address scores strictly
above 0.8 against the proposed address; and the address id reused on the
lead is that of the first known address, in directory order, scoring at
least 0.8. -/
theorem c7_address_reconciliation :
    (∀ (c : Customer) (na : PyAddress), ¬ pyAnyAddr na = true →
      should_create_new_address c na = false) ∧
    (∀ (c : Customer) (na : PyAddress), pyAnyAddr na = true → c.addresses = [] →
      should_create_new_address c na = true) ∧
    (∀ (c : Customer) (na : PyAddress), pyAnyAddr na = true → c.addresses ≠ [] →
      (should_create_new_address c na = true ↔
        ∀ ea ∈ c.addresses, ¬ ((4:ℚ)/5 < compare_addresses na ea))) ∧
    (∀ (addrs : List PyAddress) (na : PyAddress),
      (find_matching_address_from_list addrs na = none →
        ∀ ea ∈ addrs, ¬ ((4:ℚ)/5 ≤ compare_addresses (apiCmpView ea) na)) ∧
      (∀ ea, find_matching_address_from_list addrs na = some ea →
        ∃ l1 l2, addrs = l1 ++ ea :: l2 ∧
          (4:ℚ)/5 ≤ compare_addresses (apiCmpView ea) na ∧
          ∀ x ∈ l1, ¬ ((4:ℚ)/5 ≤ compare_addresses (apiCmpView x) na))) :=
  ⟨shouldCreate_empty_address, shouldCreate_no_known, shouldCreate_threshold,
    fun addrs na => ⟨findAddr_none addrs na, fun ea => findAddr_some addrs na ea⟩⟩

/-- C7 witness: an all-empty proposed address needs no creation. -/
theorem c7_witness :
    should_create_new_address ({} : Customer) ({} : PyAddress) = false :=
  c7_address_reconciliation.1 {} {} (by decide)

/-- C8: when the directory returns no id for a requested creation: for every
run whose match stage produced a match result telling the workflow to create
a customer (the no-match case as well as a partial match), a failed customer
creation aborts the workflow with a creation-failure error, no customer id,
and no lead-creation call in the log; a failed lead creation returns a
failure result that preserves the customer id created earlier (the new
customer's id) when the match said to create, and the customer id already
resolved by the match (an exact match's id) when it did not. -/
theorem c8_creation_failure_handling :
    (∀ (env : HcpEnv) (cfg : AppConfig) (form : FormData) (mr : MatchResult)
        (s₁ : List DirCall) (r : LeadCreationResult) (log : List DirCall),
      matchStage env cfg form = .ok (mr, s₁) →
      mr.should_create_new = true →
      (∀ d, env.create_customer d = .ok none) →
      createLeadRun env cfg form = .ok (r, log) →
      r = { success := false, customer_id := none, job_id := none, message := "",
            warnings := [], error := some "Failed to create customer" } ∧
        ∀ ld, DirCall.createLead ld ∉ log) ∧
    (∀ (env : HcpEnv) (cfg : AppConfig) (form : FormData) (mr : MatchResult)
        (s₁ : List DirCall) (c : Customer) (r : LeadCreationResult) (log : List DirCall),
      matchStage env cfg form = .ok (mr, s₁) →
      mr.should_create_new = true →
      c.id ≠ "" →
      (∀ d, env.create_customer d = .ok (some c)) →
      (∀ d, env.create_lead d = .ok none) →
      createLeadRun env cfg form = .ok (r, log) →
      r = { success := false, customer_id := some c.id, job_id := none, message := "",
            warnings := [], error := some "Failed to create lead" }) ∧
    (∀ (env : HcpEnv) (cfg : AppConfig) (form : FormData) (mr : MatchResult)
        (s₁ : List DirCall) (r : LeadCreationResult) (log : List DirCall),
      matchStage env cfg form = .ok (mr, s₁) →
      mr.should_create_new = false →
      (∀ d, env.create_lead d = .ok none) →
      createLeadRun env cfg form = .ok (r, log) →
      r = { success := false, customer_id := mr.customer_id, job_id := none,
            message := "", warnings := [],
            error := some "Failed to create lead" }) :=
  ⟨createLead_custFail, createLead_leadFail_created, createLead_leadFail_existing⟩

/-- C8 witness: with a stub whose customer creation returns no id, the run
aborts after the customer-creation call — in particular no lead-creation
call is logged. -/
theorem c8_witness :
    DirCall.createLead { customer_id := none, job_type := "Plumbing Demand Maintenance" } ∉
      [DirCall.createCustomer { first_name := "Unknown", last_name := "",
                                notifications_enabled := false,
                                lead_source := some "Website" }] :=
  (c8_creation_failure_handling.1
    { search_customers := fun _ => .ok [], create_customer := fun _ => .ok none,
      add_customer_address := fun _ _ => .ok none,
      get_customer_addresses := fun _ => .ok [],
      get_address_by_id := fun _ _ => .ok none, create_lead := fun _ => .ok none }
    {} {}
    { match_type := "none", confidence := 0, customer_id := none, customer_data := none,
      warnings := [], should_create_new := true }
    [] _ _ rfl rfl (fun _ => rfl) rfl).2 _

/-- C9: for every directory stub in which the phone search returns exactly one
customer and the email search returns the empty list, resolving with the
existing-customer flag off yields a partial match that creates a new
customer, carries no customer id, attaches the candidate for reference, and
contains the duplicate-review warning. -/
theorem c9_partial_phone_only (search : String → List Customer) (p e : String)
    (c1 : Customer) (name : Option String) (addr : Option PyAddress)
    (hp : p ≠ "") (he : e ≠ "") (hsp : search p = [c1]) (hse : search e = [])
    (hid : c1.id ≠ "") :
    (find_matching_customer search (some p) (some e) name addr false).match_type =
      "partial" ∧
    (find_matching_customer search (some p) (some e) name addr false).should_create_new =
      true ∧
    (find_matching_customer search (some p) (some e) name addr false).customer_id =
      none ∧
    (find_matching_customer search (some p) (some e) name addr false).customer_data =
      some c1 ∧
    dupWarning ∈ (find_matching_customer search (some p) (some e) name addr
      false).warnings := by
  have hr : find_matching_customer search (some p) (some e) name addr false =
      matchFromResults [c1] [] (some p) (some e) name addr false := by
    rw [find_matching_customer]
    simp [strTruthy, hp, he, hsp, hse]
  rw [hr]
  have hded : deduplicate_customers ([c1] ++ []) = [c1] := by
    simp [deduplicate_customers, hid]
  rw [matchFromResults]
  rw [if_neg (by simp [find_exact_matches])]
  rw [hded]
  rw [if_pos (by simp)]
  simp [select_best_match]

/-- C9 witness: a concrete stub where only the phone query returns the
candidate. -/
theorem c9_witness :
    (find_matching_customer
        (fun q => if q = "+14155551234" then [{ id := "cus_1" }] else [])
        (some "+14155551234") (some "ann@example.com") none none false).customer_id =
      none ∧
    dupWarning ∈ (find_matching_customer
        (fun q => if q = "+14155551234" then [{ id := "cus_1" }] else [])
        (some "+14155551234") (some "ann@example.com") none none false).warnings :=
  ⟨(c9_partial_phone_only _ "+14155551234" "ann@example.com" { id := "cus_1" } none none
      (by decide) (by decide) rfl rfl (by decide)).2.2.1,
    (c9_partial_phone_only _ "+14155551234" "ann@example.com" { id := "cus_1" } none none
      (by decide) (by decide) rfl rfl (by decide)).2.2.2.2⟩

/-- C10: a street-address-line-2 value supplied in the form is never included
in any address payload the orchestrator sends to the directory: the parsed
address built by the workflow always has `street_line_2` absent, the three
payload builders keep it absent, and the whole orchestration body is
unchanged by the form's `street_line_2` field. -/
theorem c10_street_line_2_absent :
    (∀ (cfg : AppConfig) (form : FormData),
      (computeParsedAddress cfg form).street_line_2 = none) ∧
    (∀ pa : PyAddress, pa.street_line_2 = none →
      (custAddrPayload pa).street_line_2 = none) ∧
    (∀ (cfg : AppConfig) (pa : PyAddress), pa.street_line_2 = none →
      (addressDataPayload cfg pa).street_line_2 = none) ∧
    (∀ (cfg : AppConfig) (pa : PyAddress) (a : AddressPayload), pa.street_line_2 = none →
      build_address_dict cfg pa = some a → a.street_line_2 = none) ∧
    (∀ (env : HcpEnv) (cfg : AppConfig) (f g : FormData),
      f.phone = g.phone → f.email = g.email → f.first_name = g.first_name →
      f.last_name = g.last_name → f.name = g.name → f.address = g.address →
      f.customer_type = g.customer_type → f.sms_consent = g.sms_consent →
      f.street = g.street → f.city = g.city → f.state = g.state → f.zip = g.zip →
      f.service_details = g.service_details → f.service_needed = g.service_needed →
      f.service_request_details = g.service_request_details →
      f.preferred_contact = g.preferred_contact →
      f.file_attachments = g.file_attachments →
      createLeadBody env cfg f = createLeadBody env cfg g) :=
  ⟨computeParsedAddress_sl2, custAddrPayload_sl2, addressDataPayload_sl2,
    build_address_dict_sl2, createLeadBody_frame⟩

/-- C10 witness: the customer-creation payload keeps `street_line_2` absent
for the always-absent parsed address. -/
theorem c10_witness : (custAddrPayload ({} : PyAddress)).street_line_2 = none :=
  c10_street_line_2_absent.2.1 {} rfl
